import Mathlib

/-!
Shallow embedding of the control/boot core of the AP130X camera ISP driver
(drivers/media/i2c/ap130x.c): the paged register transport, the sensor
register proxy (SIPM/DMA), the firmware boot sequencer with its circular
load window and retry loop, and the stream stall controller.

Machine integers are modelled as `Nat` with explicit masking where the C
code truncates; kernel error returns are modelled as `Int` return codes
(0 = success, negative = -errno), exactly as in the C source.
-/

/-! ## Register descriptor macros (from the AP130X_REG_* defines) -/

def EINVAL : Int := 22
def EAGAIN : Int := 11
def ETIMEDOUT : Int := 110

/-- AP130X_REG_16BIT(n) = (2 << 24) | (n) -/
def REG_16BIT (n : Nat) : Nat := (2 <<< 24) ||| n

/-- AP130X_REG_32BIT(n) = (4 << 24) | (n) -/
def REG_32BIT (n : Nat) : Nat := (4 <<< 24) ||| n

/-- AP130X_REG_SIZE(n) = (n) >> 24 -/
def REG_SIZE (n : Nat) : Nat := n >>> 24

/-- AP130X_REG_ADDR(n) = (n) & 0x0000ffff -/
def REG_ADDR (n : Nat) : Nat := n &&& 0x0000ffff

/-- AP130X_REG_PAGE(n) = (n) & 0x00ff0000 -/
def REG_PAGE (n : Nat) : Nat := n &&& 0x00ff0000

/-- Clearing of the page bits, the C statement reg &= ~AP130X_REG_PAGE_MASK
on a 32-bit value. -/
def CLEAR_PAGE (n : Nat) : Nat := n &&& 0xff00ffff

def AP130X_FW_WINDOW_SIZE : Nat := 0x2000
def AP130X_FW_WINDOW_OFFSET : Nat := 0x8000

def AP130X_REG_ADV_START : Nat := 0xe000
def AP130X_ADVANCED_BASE : Nat := REG_32BIT 0xf038

/-- Address rewrite for advanced (paged) registers, the C statements
reg &= ~AP130X_REG_PAGE_MASK; reg += AP130X_REG_ADV_START. -/
def ADV_REG (reg : Nat) : Nat := AP130X_REG_ADV_START + CLEAR_PAGE reg

def AP130X_CHIP_VERSION : Nat := REG_16BIT 0x0000
def AP130X_CHIP_ID : Nat := 0x0265
def AP130X_CHIP_REV : Nat := REG_16BIT 0x0050

def AP130X_SYS_START : Nat := REG_16BIT 0x601a
def AP130X_DMA_SRC : Nat := REG_32BIT 0x60a0
def AP130X_DMA_DST : Nat := REG_32BIT 0x60a4
def AP130X_DMA_SIZE : Nat := REG_32BIT 0x60a8
def AP130X_DMA_CTRL : Nat := REG_16BIT 0x60ac
def AP130X_ADV_IRQ_SYS_INTE : Nat := REG_32BIT 0x00230000

/-! ## Firmware load window (ap130x_write_fw_window)

The firmware is streamed through a circular window of size 0x2000 mapped at
register offset 0x8000.  The model returns the list of raw-write runs
(write address, bytes written) issued by the loop together with the final
window position; it describes the run sequence of a load during which no
raw bus write fails (on a bus error the C function simply stops early and
returns the error).  The C loop does not terminate when entered with
win_pos ≥ window size (write_size would be 0 forever); that case is
unreachable, the function keeps 0 ≤ win_pos < window size as an invariant,
and the model returns no runs there. -/

def ap130x_write_fw_window (buf : List Nat) (win_pos : Nat) :
    List (Nat × List Nat) × Nat :=
  if hb : buf = [] then ([], win_pos)
  else if hp : win_pos < AP130X_FW_WINDOW_SIZE then
    -- write_addr = *win_pos + AP130X_FW_WINDOW_OFFSET;
    -- write_size = min(len, AP130X_FW_WINDOW_SIZE - *win_pos);
    let write_size := min buf.length (AP130X_FW_WINDOW_SIZE - win_pos)
    -- *win_pos += write_size; if (*win_pos >= AP130X_FW_WINDOW_SIZE) *win_pos = 0;
    let pos' := if AP130X_FW_WINDOW_SIZE ≤ win_pos + write_size then 0
                else win_pos + write_size
    let rest := ap130x_write_fw_window (buf.drop write_size) pos'
    ((win_pos + AP130X_FW_WINDOW_OFFSET, buf.take write_size) :: rest.1, rest.2)
  else ([], win_pos)
termination_by buf.length
decreasing_by
  simp only [List.length_drop]
  have h1 : 1 ≤ buf.length := by
    cases buf with
    | nil => exact absurd rfl hb
    | cons a l => simp
  have h2 : 1 ≤ AP130X_FW_WINDOW_SIZE - win_pos := by omega
  omega

theorem fw_window_nil (pos : Nat) : ap130x_write_fw_window [] pos = ([], pos) := by
  rw [ap130x_write_fw_window]
  simp

theorem fw_window_step (buf : List Nat) (pos : Nat) (hb : buf ≠ [])
    (hp : pos < AP130X_FW_WINDOW_SIZE) :
    ap130x_write_fw_window buf pos =
      (let write_size := min buf.length (AP130X_FW_WINDOW_SIZE - pos)
       let pos' := if AP130X_FW_WINDOW_SIZE ≤ pos + write_size then 0
                   else pos + write_size
       let rest := ap130x_write_fw_window (buf.drop write_size) pos'
       ((pos + AP130X_FW_WINDOW_OFFSET, buf.take write_size) :: rest.1, rest.2)) := by
  rw [ap130x_write_fw_window]
  simp [hb, hp]

/-- Concatenating the runs of the window writer reproduces the input byte
stream, and the final cursor is (pos + length) mod window size. -/
theorem fw_window_join_final (n : Nat) : ∀ buf : List Nat, buf.length ≤ n →
    ∀ pos : Nat, pos < AP130X_FW_WINDOW_SIZE →
    ((ap130x_write_fw_window buf pos).1.map Prod.snd).flatten = buf ∧
    (ap130x_write_fw_window buf pos).2 =
      (pos + buf.length) % AP130X_FW_WINDOW_SIZE := by
  induction n with
  | zero =>
    intro buf hlen pos hp
    have hb : buf = [] := List.length_eq_zero.mp (Nat.le_zero.mp hlen)
    subst hb
    simp [fw_window_nil, Nat.mod_eq_of_lt hp]
  | succ n ih =>
    intro buf hlen pos hp
    by_cases hb : buf = []
    · subst hb
      simp [fw_window_nil, Nat.mod_eq_of_lt hp]
    · rw [fw_window_step buf pos hb hp]
      simp only [List.map_cons, List.flatten_cons]
      have hlen1 : 1 ≤ buf.length := by
        cases buf with
        | nil => exact absurd rfl hb
        | cons a l => simp
      set ws := min buf.length (AP130X_FW_WINDOW_SIZE - pos) with hws
      have hws1 : 1 ≤ ws := by
        have : 1 ≤ AP130X_FW_WINDOW_SIZE - pos := by omega
        omega
      have hwsle : ws ≤ buf.length := min_le_left _ _
      have hwsW : pos + ws ≤ AP130X_FW_WINDOW_SIZE := by
        have : ws ≤ AP130X_FW_WINDOW_SIZE - pos := min_le_right _ _
        omega
      set pos' := if AP130X_FW_WINDOW_SIZE ≤ pos + ws then 0 else pos + ws with hpos'
      have hpos'mod : pos' = (pos + ws) % AP130X_FW_WINDOW_SIZE := by
        rw [hpos']
        by_cases hc : AP130X_FW_WINDOW_SIZE ≤ pos + ws
        · have : pos + ws = AP130X_FW_WINDOW_SIZE := le_antisymm hwsW hc
          simp [hc, this]
        · have : pos + ws < AP130X_FW_WINDOW_SIZE := by omega
          simp [hc, Nat.mod_eq_of_lt this]
      have hpos'W : pos' < AP130X_FW_WINDOW_SIZE := by
        rw [hpos'mod]
        exact Nat.mod_lt _ (by norm_num [AP130X_FW_WINDOW_SIZE])
      have hdrop : (buf.drop ws).length ≤ n := by
        simp only [List.length_drop]
        omega
      obtain ⟨ihj, ihf⟩ := ih (buf.drop ws) hdrop pos' hpos'W
      constructor
      · rw [ihj]
        exact List.take_append_drop ws buf
      · rw [ihf, hpos'mod, Nat.mod_add_mod, List.length_drop]
        congr 1
        omega

/-- Every run issued by the window writer stays inside the firmware window
when the cursor starts below the window size. -/
theorem fw_window_run_bounds (n : Nat) : ∀ buf : List Nat, buf.length ≤ n →
    ∀ pos : Nat, pos < AP130X_FW_WINDOW_SIZE →
    ∀ r ∈ (ap130x_write_fw_window buf pos).1,
      AP130X_FW_WINDOW_OFFSET ≤ r.1 ∧
      r.1 < AP130X_FW_WINDOW_OFFSET + AP130X_FW_WINDOW_SIZE ∧
      r.1 + r.2.length ≤ AP130X_FW_WINDOW_OFFSET + AP130X_FW_WINDOW_SIZE := by
  induction n with
  | zero =>
    intro buf hlen pos hp r hr
    have hb : buf = [] := List.length_eq_zero.mp (Nat.le_zero.mp hlen)
    subst hb
    simp [fw_window_nil] at hr
  | succ n ih =>
    intro buf hlen pos hp r hr
    by_cases hb : buf = []
    · subst hb
      simp [fw_window_nil] at hr
    · rw [fw_window_step buf pos hb hp] at hr
      have hlen1 : 1 ≤ buf.length := by
        cases buf with
        | nil => exact absurd rfl hb
        | cons a l => simp
      simp only [List.mem_cons] at hr
      set ws := min buf.length (AP130X_FW_WINDOW_SIZE - pos) with hws
      have hws1 : 1 ≤ ws := by
        have : 1 ≤ AP130X_FW_WINDOW_SIZE - pos := by omega
        omega
      have hwsle : ws ≤ buf.length := min_le_left _ _
      have hwsW : pos + ws ≤ AP130X_FW_WINDOW_SIZE := by
        have : ws ≤ AP130X_FW_WINDOW_SIZE - pos := min_le_right _ _
        omega
      rcases hr with hr | hr
      · subst hr
        refine ⟨by omega, by omega, ?_⟩
        simp only [List.length_take]
        omega
      · set pos' := if AP130X_FW_WINDOW_SIZE ≤ pos + ws then 0 else pos + ws with hpos'
        have hpos'W : pos' < AP130X_FW_WINDOW_SIZE := by
          rw [hpos']
          by_cases hc : AP130X_FW_WINDOW_SIZE ≤ pos + ws
          · simp only [hc, if_true]
            norm_num [AP130X_FW_WINDOW_SIZE]
          · simp only [hc, if_false]
            omega
        have hdrop : (buf.drop ws).length ≤ n := by
          simp only [List.length_drop]
          omega
        exact ih (buf.drop ws) hdrop pos' hpos'W r hr

/-- C9: for every call to the firmware window writer with cursor strictly
below the window size (8192), every raw bus write targets an address in
[0x8000, 0x8000 + 8192) with write_addr + write_size ≤ 0x8000 + 8192, and
on return the cursor is again strictly below the window size, so the
0 ≤ cursor < window_size invariant is preserved across the segments of a
load attempt. -/
theorem C9_fw_window_bounds_safety (buf : List Nat) (pos : Nat)
    (hp : pos < AP130X_FW_WINDOW_SIZE) :
    (∀ r ∈ (ap130x_write_fw_window buf pos).1,
       AP130X_FW_WINDOW_OFFSET ≤ r.1 ∧
       r.1 < AP130X_FW_WINDOW_OFFSET + AP130X_FW_WINDOW_SIZE ∧
       r.1 + r.2.length ≤ AP130X_FW_WINDOW_OFFSET + AP130X_FW_WINDOW_SIZE) ∧
    (ap130x_write_fw_window buf pos).2 < AP130X_FW_WINDOW_SIZE := by
  constructor
  · exact fw_window_run_bounds buf.length buf le_rfl pos hp
  · obtain ⟨-, hf⟩ := fw_window_join_final buf.length buf le_rfl pos hp
    rw [hf]
    exact Nat.mod_lt _ (by norm_num [AP130X_FW_WINDOW_SIZE])

/-- C1: windowed firmware write: for every payload, writing from cursor 0
reproduces the original byte stream as the concatenation of the runs and
ends with cursor total_size mod 8192; in the scenario total_size = 10000,
pll_init_size = 100, the PLL segment is one run of 100 bytes at window
offset 0 (cursor 100), and the remainder — loaded through the same cursor,
not reset — is a run of 8092 bytes at window offset 100 followed by a run
of 1808 bytes at window offset 0, final cursor 1808. -/
theorem C1_fw_window_stream (fw : List Nat) (h : fw.length = 10000) :
    (∀ buf : List Nat,
       ((ap130x_write_fw_window buf 0).1.map Prod.snd).flatten = buf ∧
       (ap130x_write_fw_window buf 0).2 = buf.length % AP130X_FW_WINDOW_SIZE) ∧
    ap130x_write_fw_window (fw.take 100) 0 =
      ([(0 + AP130X_FW_WINDOW_OFFSET, fw.take 100)], 100) ∧
    ap130x_write_fw_window (fw.drop 100) 100 =
      ([(100 + AP130X_FW_WINDOW_OFFSET, (fw.drop 100).take 8092),
        (0 + AP130X_FW_WINDOW_OFFSET, (fw.drop 100).drop 8092)], 1808) ∧
    (fw.take 100).length = 100 ∧
    ((fw.drop 100).take 8092).length = 8092 ∧
    ((fw.drop 100).drop 8092).length = 1808 := by
  have hW : (0 : Nat) < AP130X_FW_WINDOW_SIZE := by
    norm_num [AP130X_FW_WINDOW_SIZE]
  refine ⟨?_, ?_, ?_, ?_, ?_, ?_⟩
  · intro buf
    obtain ⟨hj, hf⟩ := fw_window_join_final buf.length buf le_rfl 0 hW
    exact ⟨hj, by simpa using hf⟩
  · -- PLL-init segment: one run of 100 bytes at window offset 0.
    have hlen : (fw.take 100).length = 100 := by simp [h]
    have hne : fw.take 100 ≠ [] := by
      intro hc
      rw [hc] at hlen
      simp at hlen
    rw [fw_window_step _ _ hne hW]
    have hmin : min (fw.take 100).length (AP130X_FW_WINDOW_SIZE - 0) = 100 := by
      rw [hlen]
      norm_num [AP130X_FW_WINDOW_SIZE]
    simp only [hmin, Nat.zero_add]
    have hdrop : (fw.take 100).drop 100 = [] := by
      apply List.drop_eq_nil_of_le
      rw [hlen]
    have htake : (fw.take 100).take 100 = fw.take 100 := by
      apply List.take_of_length_le
      rw [hlen]
    rw [hdrop, htake, fw_window_nil]
    norm_num [AP130X_FW_WINDOW_SIZE]
  · -- Remainder: 8092 bytes at offset 100, wrap, then 1808 bytes at offset 0.
    have hlen : (fw.drop 100).length = 9900 := by simp [h]
    have hne : fw.drop 100 ≠ [] := by
      intro hc
      rw [hc] at hlen
      simp at hlen
    have h100 : (100 : Nat) < AP130X_FW_WINDOW_SIZE := by
      norm_num [AP130X_FW_WINDOW_SIZE]
    rw [fw_window_step _ _ hne h100]
    have hmin : min (fw.drop 100).length (AP130X_FW_WINDOW_SIZE - 100) = 8092 := by
      rw [hlen]
      norm_num [AP130X_FW_WINDOW_SIZE]
    simp only [hmin]
    have hwrap : (if AP130X_FW_WINDOW_SIZE ≤ 100 + 8092 then 0 else 100 + 8092) = 0 := by
      norm_num [AP130X_FW_WINDOW_SIZE]
    rw [hwrap]
    have hlen2 : ((fw.drop 100).drop 8092).length = 1808 := by simp [h]
    have hne2 : (fw.drop 100).drop 8092 ≠ [] := by
      intro hc
      rw [hc] at hlen2
      simp at hlen2
    rw [fw_window_step _ _ hne2 hW]
    have hmin2 : min ((fw.drop 100).drop 8092).length (AP130X_FW_WINDOW_SIZE - 0) =
        1808 := by
      rw [hlen2]
      norm_num [AP130X_FW_WINDOW_SIZE]
    simp only [hmin2, Nat.zero_add]
    have hnowrap : (if AP130X_FW_WINDOW_SIZE ≤ 0 + 1808 then 0 else 0 + 1808) = 1808 := by
      norm_num [AP130X_FW_WINDOW_SIZE]
    rw [hnowrap]
    have hdrop2 : ((fw.drop 100).drop 8092).drop 1808 = [] := by
      apply List.drop_eq_nil_of_le
      rw [hlen2]
    have htake2 : ((fw.drop 100).drop 8092).take 1808 = (fw.drop 100).drop 8092 := by
      apply List.take_of_length_le
      rw [hlen2]
    rw [hdrop2, htake2, fw_window_nil]
  · simp [h]
  · simp [h]
  · simp [h]

/-- Witness for C1 at a concrete 10000-byte payload. -/
theorem C1_fw_window_stream_witness :
    (∀ buf : List Nat,
       ((ap130x_write_fw_window buf 0).1.map Prod.snd).flatten = buf ∧
       (ap130x_write_fw_window buf 0).2 = buf.length % AP130X_FW_WINDOW_SIZE) ∧
    ap130x_write_fw_window ((List.replicate 10000 7).take 100) 0 =
      ([(0 + AP130X_FW_WINDOW_OFFSET, (List.replicate 10000 7).take 100)], 100) ∧
    ap130x_write_fw_window ((List.replicate 10000 7).drop 100) 100 =
      ([(100 + AP130X_FW_WINDOW_OFFSET,
         ((List.replicate 10000 7).drop 100).take 8092),
        (0 + AP130X_FW_WINDOW_OFFSET,
         ((List.replicate 10000 7).drop 100).drop 8092)], 1808) ∧
    ((List.replicate 10000 7).take 100).length = 100 ∧
    (((List.replicate 10000 7).drop 100).take 8092).length = 8092 ∧
    (((List.replicate 10000 7).drop 100).drop 8092).length = 1808 :=
  C1_fw_window_stream (List.replicate 10000 7) (List.length_replicate 10000 7)

/-- Witness for C9 at a concrete buffer and cursor. -/
theorem C9_fw_window_bounds_safety_witness :
    (∀ r ∈ (ap130x_write_fw_window [1, 2, 3] 5).1,
       AP130X_FW_WINDOW_OFFSET ≤ r.1 ∧
       r.1 < AP130X_FW_WINDOW_OFFSET + AP130X_FW_WINDOW_SIZE ∧
       r.1 + r.2.length ≤ AP130X_FW_WINDOW_OFFSET + AP130X_FW_WINDOW_SIZE) ∧
    (ap130x_write_fw_window [1, 2, 3] 5).2 < AP130X_FW_WINDOW_SIZE :=
  C9_fw_window_bounds_safety [1, 2, 3] 5 (by norm_num [AP130X_FW_WINDOW_SIZE])

/-! ## Register transport (ap130x_write / ap130x_read)

The control bus (the two regmaps) is modelled as a deterministic oracle:
wr gives the int return code of a raw register write, rd the return code
and value of a raw register read, both indexed by the register space width
in bytes (2 or 4) and the 16-bit address.  Every attempted raw access is
recorded in a trace of events. -/

/-- Raw bus event: an attempted register write or read, tagged with the
register space width in bytes. -/
inductive Ev where
  | wr (size addr val : Nat)
  | rd (size addr : Nat)
  deriving DecidableEq, Repr

/-- Bus oracle: outcome of raw register accesses (regmap_write/regmap_read). -/
structure Bus where
  wr : Nat → Nat → Nat → Int
  rd : Nat → Nat → Int × Nat

/-- Transport state: the page-select cache ap130x->reg_page.  The device
structure is zero-initialised at probe, so the cache starts at 0 ("none"). -/
structure Dev where
  reg_page : Nat
  deriving DecidableEq, Repr

/-- Embedding of __ap130x_write: dispatch on the descriptor width to one of
the two register spaces; a width other than 2 or 4 fails with -EINVAL
without touching the bus. -/
def ap130x_write_raw (bus : Bus) (reg val : Nat) : Int × List Ev :=
  let size := REG_SIZE reg
  let addr := REG_ADDR reg
  if size = 2 ∨ size = 4 then
    (bus.wr size addr val, [.wr size addr val])
  else (-EINVAL, [])

/-- Embedding of __ap130x_read. -/
def ap130x_read_raw (bus : Bus) (reg : Nat) : Int × Nat × List Ev :=
  let size := REG_SIZE reg
  let addr := REG_ADDR reg
  if size = 2 ∨ size = 4 then
    let r := bus.rd size addr
    (r.1, r.2, [.rd size addr])
  else (-EINVAL, 0, [])

/-- Page handling shared by ap130x_write and ap130x_read: if the descriptor
page is non-zero and differs from the cached page, write the page-select
register (AP130X_ADVANCED_BASE) first and update the cache only when that
write succeeds; then mask out the page bits and offset the address into the
advanced register window. -/
def ap130x_write_body (bus : Bus) (dev : Dev) (reg val : Nat) :
    Int × Dev × List Ev :=
  let page := REG_PAGE reg
  if page ≠ 0 then
    if dev.reg_page ≠ page then
      let sel := ap130x_write_raw bus AP130X_ADVANCED_BASE page
      if sel.1 < 0 then (sel.1, dev, sel.2)
      else
        let dev' : Dev := { reg_page := page }
        let tgt := ap130x_write_raw bus (ADV_REG reg) val
        (tgt.1, dev', sel.2 ++ tgt.2)
    else
      let tgt := ap130x_write_raw bus (ADV_REG reg) val
      (tgt.1, dev, tgt.2)
  else
    let tgt := ap130x_write_raw bus reg val
    (tgt.1, dev, tgt.2)

/-- Embedding of ap130x_write with the sticky error argument: err = none is
a NULL err pointer; when the pointed-to value is non-zero the write is a
no-op that returns the latched error, and a failing write latches its
return code into err. -/
def ap130x_write (bus : Bus) (dev : Dev) (reg val : Nat) (err : Option Int) :
    Int × Dev × Option Int × List Ev :=
  match err with
  | some e =>
    if e ≠ 0 then (e, dev, some e, [])
    else
      let r := ap130x_write_body bus dev reg val
      (r.1, r.2.1, some (if r.1 ≠ 0 then r.1 else e), r.2.2)
  | none =>
    let r := ap130x_write_body bus dev reg val
    (r.1, r.2.1, none, r.2.2)

/-- Embedding of ap130x_read (same page handling, no sticky error). -/
def ap130x_read (bus : Bus) (dev : Dev) (reg : Nat) :
    Int × Nat × Dev × List Ev :=
  let page := REG_PAGE reg
  if page ≠ 0 then
    if dev.reg_page ≠ page then
      let sel := ap130x_write_raw bus AP130X_ADVANCED_BASE page
      if sel.1 < 0 then (sel.1, 0, dev, sel.2)
      else
        let dev' : Dev := { reg_page := page }
        let tgt := ap130x_read_raw bus (ADV_REG reg)
        (tgt.1, tgt.2.1, dev', sel.2 ++ tgt.2.2)
    else
      let tgt := ap130x_read_raw bus (ADV_REG reg)
      (tgt.1, tgt.2.1, dev, tgt.2.2)
  else
    let tgt := ap130x_read_raw bus reg
    (tgt.1, tgt.2.1, dev, tgt.2.2)

/-- Predicate: a bus event is a page-select write, that is a raw write to
the AP130X_ADVANCED_BASE register (32-bit space, address 0xf038). -/
def isPageSelect : Ev → Bool
  | .wr size addr _ => size == 4 && addr == 0xf038
  | .rd _ _ => false

/-- Number of page-select writes in a trace. -/
def pageSelects (t : List Ev) : Nat := (t.filter isPageSelect).length

/-- Target address of an access to an advanced (paged) register after the
page bits are masked out and the advanced window base is added.  No real
descriptor maps onto the page-select register itself; theorems assume this
so that a data write is not miscounted as a page-select write. -/
def advTargetAddr (reg : Nat) : Nat :=
  REG_ADDR (ADV_REG reg)

theorem pageSelects_nil : pageSelects [] = 0 := rfl

theorem pageSelects_wr_ne (size addr val : Nat) (h : addr ≠ 0xf038) :
    pageSelects [.wr size addr val] = 0 := by
  have hb : (size == 4 && addr == 0xf038) = false := by
    simp [h]
  simp [pageSelects, isPageSelect, List.filter, hb]

theorem pageSelects_rd (size addr : Nat) : pageSelects [.rd size addr] = 0 := by
  simp [pageSelects, isPageSelect, List.filter]

theorem pageSelects_append (t1 t2 : List Ev) :
    pageSelects (t1 ++ t2) = pageSelects t1 + pageSelects t2 := by
  simp [pageSelects, List.filter_append]

/-- Trace of a raw register access contains no page-select write when its
address is not the page-select register. -/
theorem pageSelects_write_raw (bus : Bus) (reg val : Nat)
    (h : REG_ADDR reg ≠ 0xf038) :
    pageSelects (ap130x_write_raw bus reg val).2 = 0 := by
  unfold ap130x_write_raw
  by_cases hs : REG_SIZE reg = 2 ∨ REG_SIZE reg = 4
  · simp only [hs, if_true]
    exact pageSelects_wr_ne _ _ _ h
  · simp only [hs, if_false]
    rfl

theorem pageSelects_read_raw (bus : Bus) (reg : Nat) :
    pageSelects (ap130x_read_raw bus reg).2.2 = 0 := by
  unfold ap130x_read_raw
  by_cases hs : REG_SIZE reg = 2 ∨ REG_SIZE reg = 4
  · simp only [hs, if_true]
    exact pageSelects_rd _ _
  · simp only [hs, if_false]
    rfl

/-- Trace of the page-select write itself: a single raw 32-bit write of the
page value to address 0xf038. -/
theorem write_raw_advanced_base (bus : Bus) (page : Nat) :
    ap130x_write_raw bus AP130X_ADVANCED_BASE page =
      (bus.wr 4 0xf038 page, [.wr 4 0xf038 page]) := by
  unfold ap130x_write_raw
  have hs : REG_SIZE AP130X_ADVANCED_BASE = 4 := by decide
  have ha : REG_ADDR AP130X_ADVANCED_BASE = 0xf038 := by decide
  simp [hs, ha]

/-- Projection lemmas for ap130x_write with a NULL sticky-error pointer. -/
theorem write_none_ret (bus : Bus) (dev : Dev) (reg val : Nat) :
    (ap130x_write bus dev reg val none).1 =
      (ap130x_write_body bus dev reg val).1 := rfl

theorem write_none_dev (bus : Bus) (dev : Dev) (reg val : Nat) :
    (ap130x_write bus dev reg val none).2.1 =
      (ap130x_write_body bus dev reg val).2.1 := rfl

theorem write_none_trace (bus : Bus) (dev : Dev) (reg val : Nat) :
    (ap130x_write bus dev reg val none).2.2.2 =
      (ap130x_write_body bus dev reg val).2.2 := rfl

/-- Body trace on a page-0 descriptor: just the raw target access. -/
theorem body_trace_page0 (bus : Bus) (dev : Dev) (reg val : Nat)
    (hp : REG_PAGE reg = 0) :
    (ap130x_write_body bus dev reg val).2.2 = (ap130x_write_raw bus reg val).2 := by
  simp [ap130x_write_body, hp]

theorem body_dev_page0 (bus : Bus) (dev : Dev) (reg val : Nat)
    (hp : REG_PAGE reg = 0) :
    (ap130x_write_body bus dev reg val).2.1 = dev := by
  simp [ap130x_write_body, hp]

/-- Body trace on a cache hit: only the advanced-window target access. -/
theorem body_trace_hit (bus : Bus) (dev : Dev) (reg val : Nat)
    (hp : REG_PAGE reg ≠ 0) (hc : dev.reg_page = REG_PAGE reg) :
    (ap130x_write_body bus dev reg val).2.2 =
      (ap130x_write_raw bus (ADV_REG reg) val).2 := by
  simp [ap130x_write_body, hp, hc]

theorem body_dev_hit (bus : Bus) (dev : Dev) (reg val : Nat)
    (hp : REG_PAGE reg ≠ 0) (hc : dev.reg_page = REG_PAGE reg) :
    (ap130x_write_body bus dev reg val).2.1 = dev := by
  simp [ap130x_write_body, hp, hc]

/-- Body trace on a cache miss with a successful page-select write: the
page-select write precedes the target access. -/
theorem body_trace_miss (bus : Bus) (dev : Dev) (reg val : Nat)
    (hp : REG_PAGE reg ≠ 0) (hc : dev.reg_page ≠ REG_PAGE reg)
    (hok : ¬ bus.wr 4 0xf038 (REG_PAGE reg) < 0) :
    (ap130x_write_body bus dev reg val).2.2 =
      .wr 4 0xf038 (REG_PAGE reg) ::
        (ap130x_write_raw bus (ADV_REG reg) val).2 := by
  simp [ap130x_write_body, hp, hc, write_raw_advanced_base, hok]

/-- Cache update on a successful page-select write. -/
theorem body_dev_miss (bus : Bus) (dev : Dev) (reg val : Nat)
    (hp : REG_PAGE reg ≠ 0) (hc : dev.reg_page ≠ REG_PAGE reg)
    (hok : ¬ bus.wr 4 0xf038 (REG_PAGE reg) < 0) :
    (ap130x_write_body bus dev reg val).2.1 = ⟨REG_PAGE reg⟩ := by
  simp [ap130x_write_body, hp, hc, write_raw_advanced_base, hok]

/-- Body trace on a cache miss with a failing page-select write: the access
stops after the failed page-select write. -/
theorem body_trace_miss_fail (bus : Bus) (dev : Dev) (reg val : Nat)
    (hp : REG_PAGE reg ≠ 0) (hc : dev.reg_page ≠ REG_PAGE reg)
    (hfail : bus.wr 4 0xf038 (REG_PAGE reg) < 0) :
    (ap130x_write_body bus dev reg val).2.2 =
      [.wr 4 0xf038 (REG_PAGE reg)] := by
  simp [ap130x_write_body, hp, hc, write_raw_advanced_base, hfail]

/-- Cache unchanged on a failing page-select write. -/
theorem body_dev_miss_fail (bus : Bus) (dev : Dev) (reg val : Nat)
    (hp : REG_PAGE reg ≠ 0) (hc : dev.reg_page ≠ REG_PAGE reg)
    (hfail : bus.wr 4 0xf038 (REG_PAGE reg) < 0) :
    (ap130x_write_body bus dev reg val).2.1 = dev := by
  simp [ap130x_write_body, hp, hc, write_raw_advanced_base, hfail]

/-- Read trace on a page-0 descriptor. -/
theorem read_trace_page0 (bus : Bus) (dev : Dev) (reg : Nat)
    (hp : REG_PAGE reg = 0) :
    (ap130x_read bus dev reg).2.2.2 = (ap130x_read_raw bus reg).2.2 := by
  simp [ap130x_read, hp]

/-- Read trace on a cache hit. -/
theorem read_trace_hit (bus : Bus) (dev : Dev) (reg : Nat)
    (hp : REG_PAGE reg ≠ 0) (hc : dev.reg_page = REG_PAGE reg) :
    (ap130x_read bus dev reg).2.2.2 =
      (ap130x_read_raw bus (ADV_REG reg)).2.2 := by
  simp [ap130x_read, hp, hc]

/-- Read trace on a cache miss with a successful page-select write. -/
theorem read_trace_miss (bus : Bus) (dev : Dev) (reg : Nat)
    (hp : REG_PAGE reg ≠ 0) (hc : dev.reg_page ≠ REG_PAGE reg)
    (hok : ¬ bus.wr 4 0xf038 (REG_PAGE reg) < 0) :
    (ap130x_read bus dev reg).2.2.2 =
      .wr 4 0xf038 (REG_PAGE reg) ::
        (ap130x_read_raw bus (ADV_REG reg)).2.2 := by
  simp [ap130x_read, hp, hc, write_raw_advanced_base, hok]

theorem read_dev_miss (bus : Bus) (dev : Dev) (reg : Nat)
    (hp : REG_PAGE reg ≠ 0) (hc : dev.reg_page ≠ REG_PAGE reg)
    (hok : ¬ bus.wr 4 0xf038 (REG_PAGE reg) < 0) :
    (ap130x_read bus dev reg).2.2.1 = ⟨REG_PAGE reg⟩ := by
  simp [ap130x_read, hp, hc, write_raw_advanced_base, hok]

/-- Read trace on a cache miss with a failing page-select write. -/
theorem read_trace_miss_fail (bus : Bus) (dev : Dev) (reg : Nat)
    (hp : REG_PAGE reg ≠ 0) (hc : dev.reg_page ≠ REG_PAGE reg)
    (hfail : bus.wr 4 0xf038 (REG_PAGE reg) < 0) :
    (ap130x_read bus dev reg).2.2.2 = [.wr 4 0xf038 (REG_PAGE reg)] := by
  simp [ap130x_read, hp, hc, write_raw_advanced_base, hfail]

theorem read_dev_miss_fail (bus : Bus) (dev : Dev) (reg : Nat)
    (hp : REG_PAGE reg ≠ 0) (hc : dev.reg_page ≠ REG_PAGE reg)
    (hfail : bus.wr 4 0xf038 (REG_PAGE reg) < 0) :
    (ap130x_read bus dev reg).2.2.1 = dev := by
  simp [ap130x_read, hp, hc, write_raw_advanced_base, hfail]

theorem pageSelects_psel (p : Nat) : pageSelects [.wr 4 0xf038 p] = 1 := by
  simp [pageSelects, isPageSelect, List.filter]

theorem pageSelects_cons_psel (p : Nat) (t : List Ev) :
    pageSelects (.wr 4 0xf038 p :: t) = 1 + pageSelects t := by
  have h : Ev.wr 4 0xf038 p :: t = [Ev.wr 4 0xf038 p] ++ t := rfl
  rw [h, pageSelects_append, pageSelects_psel]

/-- C3: page-select discipline.  (1) A page-0 access never issues a
page-select write.  (2) An access whose non-zero page equals the cached
page issues none.  (3) An access whose non-zero page differs from the
cached page issues exactly one page-select write, before the target
access, and the cached page is updated to the new value only when that
write succeeds (on failure the cache keeps its old value).  (4) Two
consecutive accesses with the same non-zero page issue exactly one
page-select write in total.  (5) Consecutive accesses with differing
non-zero pages issue one page-select write before each. -/
theorem C3_page_select_discipline (bus : Bus) :
    (∀ (dev : Dev) (reg val : Nat), REG_PAGE reg = 0 → REG_ADDR reg ≠ 0xf038 →
       pageSelects (ap130x_write bus dev reg val none).2.2.2 = 0 ∧
       pageSelects (ap130x_read bus dev reg).2.2.2 = 0) ∧
    (∀ (dev : Dev) (reg val : Nat), REG_PAGE reg ≠ 0 →
       dev.reg_page = REG_PAGE reg → advTargetAddr reg ≠ 0xf038 →
       pageSelects (ap130x_write bus dev reg val none).2.2.2 = 0 ∧
       pageSelects (ap130x_read bus dev reg).2.2.2 = 0) ∧
    (∀ (dev : Dev) (reg val : Nat), REG_PAGE reg ≠ 0 →
       dev.reg_page ≠ REG_PAGE reg → advTargetAddr reg ≠ 0xf038 →
       (ap130x_write bus dev reg val none).2.2.2.head? =
         some (.wr 4 0xf038 (REG_PAGE reg)) ∧
       pageSelects (ap130x_write bus dev reg val none).2.2.2.tail = 0 ∧
       (ap130x_read bus dev reg).2.2.2.head? =
         some (.wr 4 0xf038 (REG_PAGE reg)) ∧
       pageSelects (ap130x_read bus dev reg).2.2.2.tail = 0 ∧
       (¬ bus.wr 4 0xf038 (REG_PAGE reg) < 0 →
          (ap130x_write bus dev reg val none).2.1.reg_page = REG_PAGE reg ∧
          (ap130x_read bus dev reg).2.2.1.reg_page = REG_PAGE reg) ∧
       (bus.wr 4 0xf038 (REG_PAGE reg) < 0 →
          (ap130x_write bus dev reg val none).2.1 = dev ∧
          (ap130x_read bus dev reg).2.2.1 = dev)) ∧
    (∀ (dev : Dev) (reg1 reg2 v1 v2 : Nat), REG_PAGE reg1 ≠ 0 →
       REG_PAGE reg2 = REG_PAGE reg1 → dev.reg_page ≠ REG_PAGE reg1 →
       advTargetAddr reg1 ≠ 0xf038 → advTargetAddr reg2 ≠ 0xf038 →
       bus.wr 4 0xf038 (REG_PAGE reg1) = 0 →
       pageSelects ((ap130x_write bus dev reg1 v1 none).2.2.2 ++
         (ap130x_write bus (ap130x_write bus dev reg1 v1 none).2.1
            reg2 v2 none).2.2.2) = 1) ∧
    (∀ (dev : Dev) (reg1 reg2 v1 v2 : Nat), REG_PAGE reg1 ≠ 0 →
       REG_PAGE reg2 ≠ 0 → REG_PAGE reg2 ≠ REG_PAGE reg1 →
       dev.reg_page ≠ REG_PAGE reg1 → advTargetAddr reg1 ≠ 0xf038 →
       advTargetAddr reg2 ≠ 0xf038 → bus.wr 4 0xf038 (REG_PAGE reg1) = 0 →
       (ap130x_write bus dev reg1 v1 none).2.2.2.head? =
         some (.wr 4 0xf038 (REG_PAGE reg1)) ∧
       pageSelects (ap130x_write bus dev reg1 v1 none).2.2.2 = 1 ∧
       (ap130x_write bus (ap130x_write bus dev reg1 v1 none).2.1
          reg2 v2 none).2.2.2.head? = some (.wr 4 0xf038 (REG_PAGE reg2)) ∧
       pageSelects (ap130x_write bus (ap130x_write bus dev reg1 v1 none).2.1
          reg2 v2 none).2.2.2 = 1) := by
  refine ⟨?_, ?_, ?_, ?_, ?_⟩
  · intro dev reg val hpage haddr
    constructor
    · rw [write_none_trace, body_trace_page0 bus dev reg val hpage]
      exact pageSelects_write_raw bus reg val haddr
    · rw [read_trace_page0 bus dev reg hpage]
      exact pageSelects_read_raw bus reg
  · intro dev reg val hpage hcache haddr
    constructor
    · rw [write_none_trace, body_trace_hit bus dev reg val hpage hcache]
      exact pageSelects_write_raw bus (ADV_REG reg) val haddr
    · rw [read_trace_hit bus dev reg hpage hcache]
      exact pageSelects_read_raw bus (ADV_REG reg)
  · intro dev reg val hpage hcache haddr
    by_cases hsel : bus.wr 4 0xf038 (REG_PAGE reg) < 0
    · refine ⟨?_, ?_, ?_, ?_, fun h => absurd hsel (by omega), fun _ => ⟨?_, ?_⟩⟩
      · rw [write_none_trace, body_trace_miss_fail bus dev reg val hpage hcache hsel]
        rfl
      · rw [write_none_trace, body_trace_miss_fail bus dev reg val hpage hcache hsel]
        rfl
      · rw [read_trace_miss_fail bus dev reg hpage hcache hsel]
        rfl
      · rw [read_trace_miss_fail bus dev reg hpage hcache hsel]
        rfl
      · rw [write_none_dev, body_dev_miss_fail bus dev reg val hpage hcache hsel]
      · rw [read_dev_miss_fail bus dev reg hpage hcache hsel]
    · refine ⟨?_, ?_, ?_, ?_, fun _ => ⟨?_, ?_⟩, fun h => absurd h hsel⟩
      · rw [write_none_trace, body_trace_miss bus dev reg val hpage hcache hsel]
        rfl
      · rw [write_none_trace, body_trace_miss bus dev reg val hpage hcache hsel]
        exact pageSelects_write_raw bus (ADV_REG reg) val haddr
      · rw [read_trace_miss bus dev reg hpage hcache hsel]
        rfl
      · rw [read_trace_miss bus dev reg hpage hcache hsel]
        exact pageSelects_read_raw bus (ADV_REG reg)
      · rw [write_none_dev, body_dev_miss bus dev reg val hpage hcache hsel]
      · rw [read_dev_miss bus dev reg hpage hcache hsel]
  · intro dev reg1 reg2 v1 v2 hp1 hp21 hmiss ha1 ha2 hselok
    have hok : ¬ bus.wr 4 0xf038 (REG_PAGE reg1) < 0 := by omega
    have hd1 : (ap130x_write bus dev reg1 v1 none).2.1 = ⟨REG_PAGE reg1⟩ := by
      rw [write_none_dev, body_dev_miss bus dev reg1 v1 hp1 hmiss hok]
    have hp2 : REG_PAGE reg2 ≠ 0 := by rw [hp21]; exact hp1
    have hhit : (⟨REG_PAGE reg1⟩ : Dev).reg_page = REG_PAGE reg2 := hp21.symm
    rw [pageSelects_append, hd1, write_none_trace, write_none_trace,
      body_trace_miss bus dev reg1 v1 hp1 hmiss hok,
      body_trace_hit bus ⟨REG_PAGE reg1⟩ reg2 v2 hp2 hhit,
      pageSelects_cons_psel,
      pageSelects_write_raw bus (ADV_REG reg1) v1 ha1,
      pageSelects_write_raw bus (ADV_REG reg2) v2 ha2]
  · intro dev reg1 reg2 v1 v2 hp1 hp2 hp12 hmiss ha1 ha2 hselok
    have hok : ¬ bus.wr 4 0xf038 (REG_PAGE reg1) < 0 := by omega
    have hd1 : (ap130x_write bus dev reg1 v1 none).2.1 = ⟨REG_PAGE reg1⟩ := by
      rw [write_none_dev, body_dev_miss bus dev reg1 v1 hp1 hmiss hok]
    have hmiss2 : (⟨REG_PAGE reg1⟩ : Dev).reg_page ≠ REG_PAGE reg2 :=
      fun hc => hp12 hc.symm
    refine ⟨?_, ?_, ?_, ?_⟩
    · rw [write_none_trace, body_trace_miss bus dev reg1 v1 hp1 hmiss hok]
      rfl
    · rw [write_none_trace, body_trace_miss bus dev reg1 v1 hp1 hmiss hok,
        pageSelects_cons_psel, pageSelects_write_raw bus (ADV_REG reg1) v1 ha1]
    · rw [hd1]
      by_cases hsel2 : bus.wr 4 0xf038 (REG_PAGE reg2) < 0
      · rw [write_none_trace,
          body_trace_miss_fail bus ⟨REG_PAGE reg1⟩ reg2 v2 hp2 hmiss2 hsel2]
        rfl
      · rw [write_none_trace,
          body_trace_miss bus ⟨REG_PAGE reg1⟩ reg2 v2 hp2 hmiss2 hsel2]
        rfl
    · rw [hd1]
      by_cases hsel2 : bus.wr 4 0xf038 (REG_PAGE reg2) < 0
      · rw [write_none_trace,
          body_trace_miss_fail bus ⟨REG_PAGE reg1⟩ reg2 v2 hp2 hmiss2 hsel2,
          pageSelects_psel]
      · rw [write_none_trace,
          body_trace_miss bus ⟨REG_PAGE reg1⟩ reg2 v2 hp2 hmiss2 hsel2,
          pageSelects_cons_psel, pageSelects_write_raw bus (ADV_REG reg2) v2 ha2]

/-- Bus oracle on which every raw access succeeds and every read returns 0. -/
def okBus : Bus := ⟨fun _ _ _ => 0, fun _ _ => (0, 0)⟩

/-- Witness for C3 on a concrete bus, device and registers, one conclusion
per part of the discipline. -/
theorem C3_page_select_discipline_witness :
    pageSelects (ap130x_write okBus ⟨0⟩ AP130X_SYS_START 1 none).2.2.2 = 0 ∧
    pageSelects (ap130x_write okBus ⟨REG_PAGE AP130X_ADV_IRQ_SYS_INTE⟩
      AP130X_ADV_IRQ_SYS_INTE 1 none).2.2.2 = 0 ∧
    (ap130x_write okBus ⟨0⟩ AP130X_ADV_IRQ_SYS_INTE 1 none).2.2.2.head? =
      some (.wr 4 0xf038 (REG_PAGE AP130X_ADV_IRQ_SYS_INTE)) ∧
    pageSelects ((ap130x_write okBus ⟨0⟩ AP130X_ADV_IRQ_SYS_INTE 1 none).2.2.2 ++
      (ap130x_write okBus
        (ap130x_write okBus ⟨0⟩ AP130X_ADV_IRQ_SYS_INTE 1 none).2.1
        AP130X_ADV_IRQ_SYS_INTE 2 none).2.2.2) = 1 ∧
    pageSelects (ap130x_write okBus
      (ap130x_write okBus ⟨0⟩ AP130X_ADV_IRQ_SYS_INTE 1 none).2.1
      (REG_32BIT 0x00240000) 2 none).2.2.2 = 1 :=
  ⟨((C3_page_select_discipline okBus).1 ⟨0⟩ AP130X_SYS_START 1
      (by decide) (by decide)).1,
   ((C3_page_select_discipline okBus).2.1 ⟨REG_PAGE AP130X_ADV_IRQ_SYS_INTE⟩
      AP130X_ADV_IRQ_SYS_INTE 1 (by decide) rfl (by decide)).1,
   (((C3_page_select_discipline okBus).2.2.1 ⟨0⟩ AP130X_ADV_IRQ_SYS_INTE 1
      (by decide) (by decide) (by decide)).1),
   ((C3_page_select_discipline okBus).2.2.2.1 ⟨0⟩ AP130X_ADV_IRQ_SYS_INTE
      AP130X_ADV_IRQ_SYS_INTE 1 2 (by decide) rfl (by decide) (by decide)
      (by decide) rfl),
   (((C3_page_select_discipline okBus).2.2.2.2 ⟨0⟩ AP130X_ADV_IRQ_SYS_INTE
      (REG_32BIT 0x00240000) 1 2 (by decide) (by decide) (by decide)
      (by decide) (by decide) (by decide) rfl).2.2.2)⟩

/-! ## Transport state across power transitions

ap130x_power_off (drivers/media/i2c/ap130x.c) asserts RESET, gates the
clock, toggles STANDBY and disables the regulators; ap130x_power_on does
the converse.  Neither function, nor any other code in the driver, ever
assigns ap130x->reg_page: the field is written only by ap130x_write and
ap130x_read after a successful page-select write.  Restricted to the
transport state the two functions are therefore the identity. -/

def ap130x_power_off_transport (dev : Dev) : Dev := dev

def ap130x_power_on_transport (dev : Dev) : Dev := dev

/-- C4 (code_bug evaluation): the page cache is not reset by a power
cycle.  After an advanced-register access caches page 0x230000, a full
power cycle (as performed between firmware-load retry attempts) leaves
reg_page = 0x230000, and the next access to the same page issues zero
page-select writes — it skips the page-select write on the basis of a page
value cached before the power transition, contradicting the claim that the
cache is reset to "none" on every power cycle. -/
theorem C4_page_cache_survives_power_cycle :
    (ap130x_write okBus ⟨0⟩ AP130X_ADV_IRQ_SYS_INTE 1 none).2.1.reg_page =
      0x230000 ∧
    ap130x_power_on_transport (ap130x_power_off_transport
      (ap130x_write okBus ⟨0⟩ AP130X_ADV_IRQ_SYS_INTE 1 none).2.1) =
      (ap130x_write okBus ⟨0⟩ AP130X_ADV_IRQ_SYS_INTE 1 none).2.1 ∧
    pageSelects (ap130x_write okBus
      (ap130x_power_on_transport (ap130x_power_off_transport
        (ap130x_write okBus ⟨0⟩ AP130X_ADV_IRQ_SYS_INTE 1 none).2.1))
      AP130X_ADV_IRQ_SYS_INTE 2 none).2.2.2 = 0 := by
  refine ⟨?_, rfl, ?_⟩
  · decide
  · decide

/-! ## Sensor register proxy (SIPM / DMA engine) -/

def AP130X_DMA_SIP_SIPM (n : Nat) : Nat := n <<< 26
def AP130X_DMA_SIP_DATA_16_BIT : Nat := 1 <<< 25
def AP130X_DMA_SIP_ADDR_16_BIT : Nat := 1 <<< 24
def AP130X_DMA_SIP_ID (n : Nat) : Nat := n <<< 17
def AP130X_DMA_SIP_REG (n : Nat) : Nat := n
def AP130X_DMA_CTRL_SCH_NORMAL : Nat := 0 <<< 12
def AP130X_DMA_CTRL_DST_REG : Nat := 0 <<< 8
def AP130X_DMA_CTRL_DST_SIP : Nat := 3 <<< 8
def AP130X_DMA_CTRL_SRC_REG : Nat := 0 <<< 4
def AP130X_DMA_CTRL_SRC_SIP : Nat := 3 <<< 4
def AP130X_DMA_CTRL_MODE_MASK : Nat := 7 <<< 0
def AP130X_DMA_CTRL_MODE_IDLE : Nat := 0 <<< 0
def AP130X_DMA_CTRL_MODE_COPY : Nat := 2 <<< 0

/-- Embedding of the poll loop of ap130x_dma_wait_idle: up to the given
number of attempts, read AP130X_DMA_CTRL; propagate a read error; stop
successfully when the mode field is IDLE; time out with -ETIMEDOUT when the
attempts are exhausted. -/
def ap130x_dma_wait_idle_loop (bus : Bus) (dev : Dev) : Nat → Int × Dev × List Ev
  | 0 => (-ETIMEDOUT, dev, [])
  | i + 1 =>
    let r := ap130x_read bus dev AP130X_DMA_CTRL
    if r.1 < 0 then (r.1, r.2.2.1, r.2.2.2)
    else if r.2.1 &&& AP130X_DMA_CTRL_MODE_MASK = AP130X_DMA_CTRL_MODE_IDLE then
      (0, r.2.2.1, r.2.2.2)
    else
      let rest := ap130x_dma_wait_idle_loop bus r.2.2.1 i
      (rest.1, rest.2.1, r.2.2.2 ++ rest.2.2)

/-- Embedding of ap130x_dma_wait_idle: 50 poll attempts. -/
def ap130x_dma_wait_idle (bus : Bus) (dev : Dev) : Int × Dev × List Ev :=
  ap130x_dma_wait_idle_loop bus dev 50

/-- Embedding of ap130x_sipm_read: reject descriptors wider than 2 bytes,
wait for the DMA engine, program size / source descriptor / destination
scratch / control (chained through the sticky error), wait for completion,
read the scratch register and shift the big-endian word right by
32 - size*8 bits. -/
def ap130x_sipm_read (bus : Bus) (dev : Dev) (i2c_addr port reg : Nat) :
    Int × Nat × Dev × List Ev :=
  let size := REG_SIZE reg
  if size > 2 then (-EINVAL, 0, dev, [])
  else
    let w0 := ap130x_dma_wait_idle bus dev
    if w0.1 < 0 then (w0.1, 0, w0.2.1, w0.2.2)
    else
      let s1 := ap130x_write bus w0.2.1 AP130X_DMA_SIZE size (some 0)
      let src := AP130X_DMA_SIP_SIPM port
            ||| (if size = 2 then AP130X_DMA_SIP_DATA_16_BIT else 0)
            ||| AP130X_DMA_SIP_ADDR_16_BIT
            ||| AP130X_DMA_SIP_ID i2c_addr
            ||| AP130X_DMA_SIP_REG (REG_ADDR reg)
      let s2 := ap130x_write bus s1.2.1 AP130X_DMA_SRC src s1.2.2.1
      let s3 := ap130x_write bus s2.2.1 AP130X_DMA_DST
        (REG_ADDR AP130X_DMA_DST) s2.2.2.1
      let s4 := ap130x_write bus s3.2.1 AP130X_DMA_CTRL
        (AP130X_DMA_CTRL_SCH_NORMAL ||| AP130X_DMA_CTRL_DST_REG |||
         AP130X_DMA_CTRL_SRC_SIP ||| AP130X_DMA_CTRL_MODE_COPY) s3.2.2.1
      let t := w0.2.2 ++ s1.2.2.2 ++ s2.2.2.2 ++ s3.2.2.2 ++ s4.2.2.2
      if s4.1 < 0 then (s4.1, 0, s4.2.1, t)
      else
        let w1 := ap130x_dma_wait_idle bus s4.2.1
        if w1.1 < 0 then (w1.1, 0, w1.2.1, t ++ w1.2.2)
        else
          let rd := ap130x_read bus w1.2.1 AP130X_DMA_DST
          if rd.1 < 0 then (rd.1, 0, rd.2.2.1, t ++ w1.2.2 ++ rd.2.2.2)
          else (0, rd.2.1 >>> (32 - size * 8), rd.2.2.1,
                t ++ w1.2.2 ++ rd.2.2.2)

/-- Embedding of ap130x_sipm_write: the value is unconditionally shifted
left by 16 bits (truncated to 32 bits as in C) and combined with the
DMA_SRC address before being placed in the scratch/source register. -/
def ap130x_sipm_write (bus : Bus) (dev : Dev) (i2c_addr port reg val : Nat) :
    Int × Dev × List Ev :=
  let size := REG_SIZE reg
  if size > 2 then (-EINVAL, dev, [])
  else
    let w0 := ap130x_dma_wait_idle bus dev
    if w0.1 < 0 then (w0.1, w0.2.1, w0.2.2)
    else
      let s1 := ap130x_write bus w0.2.1 AP130X_DMA_SIZE size (some 0)
      let s2 := ap130x_write bus s1.2.1 AP130X_DMA_SRC
        (((val <<< 16) % 2 ^ 32) ||| REG_ADDR AP130X_DMA_SRC) s1.2.2.1
      let t2 := w0.2.2 ++ s1.2.2.2 ++ s2.2.2.2
      if s2.1 < 0 then (s2.1, s2.2.1, t2)
      else
        let dst := AP130X_DMA_SIP_SIPM port
              ||| (if size = 2 then AP130X_DMA_SIP_DATA_16_BIT else 0)
              ||| AP130X_DMA_SIP_ADDR_16_BIT
              ||| AP130X_DMA_SIP_ID i2c_addr
              ||| AP130X_DMA_SIP_REG (REG_ADDR reg)
        let s3 := ap130x_write bus s2.2.1 AP130X_DMA_DST dst s2.2.2.1
        let s4 := ap130x_write bus s3.2.1 AP130X_DMA_CTRL
          (AP130X_DMA_CTRL_SCH_NORMAL ||| AP130X_DMA_CTRL_DST_SIP |||
           AP130X_DMA_CTRL_SRC_REG ||| AP130X_DMA_CTRL_MODE_COPY) s3.2.2.1
        let t4 := t2 ++ s3.2.2.2 ++ s4.2.2.2
        if s4.1 < 0 then (s4.1, s4.2.1, t4)
        else
          let w1 := ap130x_dma_wait_idle bus s4.2.1
          if w1.1 < 0 then (w1.1, w1.2.1, t4 ++ w1.2.2)
          else (0, w1.2.1, t4 ++ w1.2.2)

theorem ap130x_write_raw_spec (bus : Bus) (reg val : Nat)
    (h : REG_SIZE reg = 2 ∨ REG_SIZE reg = 4) :
    ap130x_write_raw bus reg val =
      (bus.wr (REG_SIZE reg) (REG_ADDR reg) val,
       [.wr (REG_SIZE reg) (REG_ADDR reg) val]) := by
  simp [ap130x_write_raw, h]

theorem ap130x_read_raw_spec (bus : Bus) (reg : Nat)
    (h : REG_SIZE reg = 2 ∨ REG_SIZE reg = 4) :
    ap130x_read_raw bus reg =
      ((bus.rd (REG_SIZE reg) (REG_ADDR reg)).1,
       (bus.rd (REG_SIZE reg) (REG_ADDR reg)).2,
       [.rd (REG_SIZE reg) (REG_ADDR reg)]) := by
  simp [ap130x_read_raw, h]

/-- Full characterization of ap130x_read on a page-0 descriptor. -/
theorem ap130x_read_page0_full (bus : Bus) (dev : Dev) (reg : Nat)
    (hp : REG_PAGE reg = 0) :
    ap130x_read bus dev reg =
      ((ap130x_read_raw bus reg).1, (ap130x_read_raw bus reg).2.1, dev,
       (ap130x_read_raw bus reg).2.2) := by
  simp [ap130x_read, hp]

/-- Full characterization of ap130x_write_body on a page-0 descriptor. -/
theorem body_page0_full (bus : Bus) (dev : Dev) (reg val : Nat)
    (hp : REG_PAGE reg = 0) :
    ap130x_write_body bus dev reg val =
      ((ap130x_write_raw bus reg val).1, dev,
       (ap130x_write_raw bus reg val).2) := by
  simp [ap130x_write_body, hp]

/-- Sticky chaining: a write with a latched non-zero error is a no-op. -/
theorem ap130x_write_latched (bus : Bus) (dev : Dev) (reg val : Nat)
    (e : Int) (he : e ≠ 0) :
    ap130x_write bus dev reg val (some e) = (e, dev, some e, []) := by
  simp [ap130x_write, he]

/-- Sticky chaining: a write with a clean error slot runs the body; the
slot latches the body's return code exactly when it is non-zero. -/
theorem ap130x_write_clean (bus : Bus) (dev : Dev) (reg val : Nat) :
    ap130x_write bus dev reg val (some 0) =
      ((ap130x_write_body bus dev reg val).1,
       (ap130x_write_body bus dev reg val).2.1,
       some (if (ap130x_write_body bus dev reg val).1 ≠ 0 then
               (ap130x_write_body bus dev reg val).1 else 0),
       (ap130x_write_body bus dev reg val).2.2) := by
  simp [ap130x_write]

/-- Reading the DMA control register: a page-0 16-bit read at 0x60ac. -/
theorem dma_ctrl_read (bus : Bus) (dev : Dev) :
    ap130x_read bus dev AP130X_DMA_CTRL =
      ((bus.rd 2 0x60ac).1, (bus.rd 2 0x60ac).2, dev, [.rd 2 0x60ac]) := by
  have hs : REG_SIZE AP130X_DMA_CTRL = 2 := by decide
  have ha : REG_ADDR AP130X_DMA_CTRL = 0x60ac := by decide
  rw [ap130x_read_page0_full bus dev _ (by decide),
    ap130x_read_raw_spec bus _ (Or.inl hs), hs, ha]

/-- Poll loop with a busy DMA engine: all attempts are consumed and the
loop times out. -/
theorem dma_wait_idle_loop_busy (bus : Bus) (dev : Dev)
    (herr : ¬ (bus.rd 2 0x60ac).1 < 0)
    (hbusy : ¬ (bus.rd 2 0x60ac).2 &&& AP130X_DMA_CTRL_MODE_MASK =
       AP130X_DMA_CTRL_MODE_IDLE) :
    ∀ n, ap130x_dma_wait_idle_loop bus dev n =
      (-ETIMEDOUT, dev, List.replicate n (.rd 2 0x60ac)) := by
  intro n
  induction n with
  | zero => rfl
  | succ n ih =>
    rw [ap130x_dma_wait_idle_loop]
    simp only [dma_ctrl_read, herr, if_false, hbusy, ih]
    simp [List.replicate_succ]

/-- Deterministic characterization of ap130x_dma_wait_idle: a failing
control-register read propagates its error, an idle mode field stops the
poll successfully, and a persistently busy engine exhausts all 50 attempts
and fails with -ETIMEDOUT. -/
theorem dma_wait_idle_spec (bus : Bus) (dev : Dev) :
    ap130x_dma_wait_idle bus dev =
      (if (bus.rd 2 0x60ac).1 < 0 then
         ((bus.rd 2 0x60ac).1, dev, [.rd 2 0x60ac])
       else if (bus.rd 2 0x60ac).2 &&& AP130X_DMA_CTRL_MODE_MASK =
           AP130X_DMA_CTRL_MODE_IDLE then
         (0, dev, [.rd 2 0x60ac])
       else (-ETIMEDOUT, dev, List.replicate 50 (.rd 2 0x60ac))) := by
  by_cases herr : (bus.rd 2 0x60ac).1 < 0
  · rw [ap130x_dma_wait_idle, ap130x_dma_wait_idle_loop]
    simp [dma_ctrl_read, herr]
  · by_cases hbusy : (bus.rd 2 0x60ac).2 &&& AP130X_DMA_CTRL_MODE_MASK =
        AP130X_DMA_CTRL_MODE_IDLE
    · rw [ap130x_dma_wait_idle, ap130x_dma_wait_idle_loop]
      simp [dma_ctrl_read, herr, hbusy]
    · rw [ap130x_dma_wait_idle, dma_wait_idle_loop_busy bus dev herr hbusy]
      simp [herr, hbusy]

/-- Page-0 register writes used by the DMA programming sequence keep the
transport state unchanged and produce a single raw write event. -/
theorem write_clean_page0 (bus : Bus) (dev : Dev) (reg val : Nat)
    (hp : REG_PAGE reg = 0) (hs : REG_SIZE reg = 2 ∨ REG_SIZE reg = 4) :
    ap130x_write bus dev reg val (some 0) =
      (bus.wr (REG_SIZE reg) (REG_ADDR reg) val, dev,
       some (if bus.wr (REG_SIZE reg) (REG_ADDR reg) val ≠ 0 then
               bus.wr (REG_SIZE reg) (REG_ADDR reg) val else 0),
       [.wr (REG_SIZE reg) (REG_ADDR reg) val]) := by
  rw [ap130x_write_clean, body_page0_full bus dev reg val hp,
    ap130x_write_raw_spec bus reg val hs]

/-- Page-0 write with an arbitrary sticky error slot, fully characterized:
a latched non-zero error short-circuits, otherwise the raw write runs and
its non-zero return code is latched. -/
theorem write_some_page0 (bus : Bus) (dev : Dev) (reg val : Nat) (e : Int)
    (hp : REG_PAGE reg = 0) (hs : REG_SIZE reg = 2 ∨ REG_SIZE reg = 4) :
    ap130x_write bus dev reg val (some e) =
      (if e ≠ 0 then e else bus.wr (REG_SIZE reg) (REG_ADDR reg) val,
       dev,
       some (if e ≠ 0 then e
             else if bus.wr (REG_SIZE reg) (REG_ADDR reg) val ≠ 0 then
               bus.wr (REG_SIZE reg) (REG_ADDR reg) val else 0),
       if e ≠ 0 then ([] : List Ev)
       else [.wr (REG_SIZE reg) (REG_ADDR reg) val]) := by
  by_cases he : e ≠ 0
  · rw [ap130x_write_latched bus dev reg val e he]
    simp [he]
  · simp only [ne_eq, not_not] at he
    subst he
    rw [write_clean_page0 bus dev reg val hp hs]
    simp

/-- Reading the DMA destination/scratch register: a page-0 32-bit read at
0x60a4. -/
theorem dma_dst_read (bus : Bus) (dev : Dev) :
    ap130x_read bus dev AP130X_DMA_DST =
      ((bus.rd 4 0x60a4).1, (bus.rd 4 0x60a4).2, dev, [.rd 4 0x60a4]) := by
  have hs : REG_SIZE AP130X_DMA_DST = 4 := by decide
  have ha : REG_ADDR AP130X_DMA_DST = 0x60a4 := by decide
  rw [ap130x_read_page0_full bus dev _ (by decide),
    ap130x_read_raw_spec bus _ (Or.inr hs), hs, ha]

set_option maxHeartbeats 3000000 in
theorem sipm_read_value_helper (bus : Bus) (dev : Dev) (a p reg : Nat)
    (hsz : REG_SIZE reg = 1 ∨ REG_SIZE reg = 2) :
    (ap130x_sipm_read bus dev a p reg).1 = 0 →
      (ap130x_sipm_read bus dev a p reg).2.1 =
        (bus.rd 4 0x60a4).2 >>> (32 - REG_SIZE reg * 8) := by
  have hgt : ¬ REG_SIZE reg > 2 := by rcases hsz with h | h <;> omega
  have Wsize : ∀ (d : Dev) (v : Nat) (e : Int),
      ap130x_write bus d AP130X_DMA_SIZE v (some e) =
        (if e ≠ 0 then e else bus.wr 4 0x60a8 v, d,
         some (if e ≠ 0 then e
               else if bus.wr 4 0x60a8 v ≠ 0 then bus.wr 4 0x60a8 v else 0),
         if e ≠ 0 then ([] : List Ev) else [.wr 4 0x60a8 v]) := by
    intro d v e
    have h4 : REG_SIZE AP130X_DMA_SIZE = 4 := by decide
    have ha : REG_ADDR AP130X_DMA_SIZE = 0x60a8 := by decide
    rw [write_some_page0 bus d _ v e (by decide) (Or.inr h4), h4, ha]
  have Wsrc : ∀ (d : Dev) (v : Nat) (e : Int),
      ap130x_write bus d AP130X_DMA_SRC v (some e) =
        (if e ≠ 0 then e else bus.wr 4 0x60a0 v, d,
         some (if e ≠ 0 then e
               else if bus.wr 4 0x60a0 v ≠ 0 then bus.wr 4 0x60a0 v else 0),
         if e ≠ 0 then ([] : List Ev) else [.wr 4 0x60a0 v]) := by
    intro d v e
    have h4 : REG_SIZE AP130X_DMA_SRC = 4 := by decide
    have ha : REG_ADDR AP130X_DMA_SRC = 0x60a0 := by decide
    rw [write_some_page0 bus d _ v e (by decide) (Or.inr h4), h4, ha]
  have Wdst : ∀ (d : Dev) (v : Nat) (e : Int),
      ap130x_write bus d AP130X_DMA_DST v (some e) =
        (if e ≠ 0 then e else bus.wr 4 0x60a4 v, d,
         some (if e ≠ 0 then e
               else if bus.wr 4 0x60a4 v ≠ 0 then bus.wr 4 0x60a4 v else 0),
         if e ≠ 0 then ([] : List Ev) else [.wr 4 0x60a4 v]) := by
    intro d v e
    have h4 : REG_SIZE AP130X_DMA_DST = 4 := by decide
    have ha : REG_ADDR AP130X_DMA_DST = 0x60a4 := by decide
    rw [write_some_page0 bus d _ v e (by decide) (Or.inr h4), h4, ha]
  have Wctrl : ∀ (d : Dev) (v : Nat) (e : Int),
      ap130x_write bus d AP130X_DMA_CTRL v (some e) =
        (if e ≠ 0 then e else bus.wr 2 0x60ac v, d,
         some (if e ≠ 0 then e
               else if bus.wr 2 0x60ac v ≠ 0 then bus.wr 2 0x60ac v else 0),
         if e ≠ 0 then ([] : List Ev) else [.wr 2 0x60ac v]) := by
    intro d v e
    have h2 : REG_SIZE AP130X_DMA_CTRL = 2 := by decide
    have ha : REG_ADDR AP130X_DMA_CTRL = 0x60ac := by decide
    rw [write_some_page0 bus d _ v e (by decide) (Or.inl h2), h2, ha]
  rw [ap130x_sipm_read]
  simp only [hgt, if_false, dma_wait_idle_spec]
  by_cases herr : (bus.rd 2 0x60ac).1 < 0
  · simp only [herr, if_true]
    intro h0
    omega
  · by_cases hbusy : (bus.rd 2 0x60ac).2 &&& AP130X_DMA_CTRL_MODE_MASK =
        AP130X_DMA_CTRL_MODE_IDLE
    · simp only [herr, if_false, hbusy, if_true]
      simp only [Wsize, Wsrc, Wdst, Wctrl, dma_dst_read]
      simp only [ne_eq, ite_not, if_true, if_false]
      split_ifs <;> intro h0 <;> first | rfl | omega
    · simp only [herr, if_false, hbusy]
      have hto : (-ETIMEDOUT : Int) < 0 := by norm_num [ETIMEDOUT]
      simp only [if_false, hto, if_true]
      intro h0
      norm_num [ETIMEDOUT] at h0

set_option maxHeartbeats 3000000 in
theorem sipm_write_scratch_helper (bus : Bus) (dev : Dev)
    (a p reg val : Nat) (hsz : REG_SIZE reg = 1 ∨ REG_SIZE reg = 2)
    (hwr : ∀ (s q v : Nat), bus.wr s q v ≤ 0) :
    ((ap130x_sipm_write bus dev a p reg val).1 = 0 →
       Ev.wr 4 0x60a0 (((val <<< 16) % 2 ^ 32) ||| 0x60a0) ∈
         (ap130x_sipm_write bus dev a p reg val).2.2) ∧
    (∀ w : Nat, Ev.wr 4 0x60a0 w ∈ (ap130x_sipm_write bus dev a p reg val).2.2 →
       w = ((val <<< 16) % 2 ^ 32) ||| 0x60a0) := by
  have hgt : ¬ REG_SIZE reg > 2 := by rcases hsz with h | h <;> omega
  have Wsize : ∀ (d : Dev) (v : Nat) (e : Int),
      ap130x_write bus d AP130X_DMA_SIZE v (some e) =
        (if e ≠ 0 then e else bus.wr 4 0x60a8 v, d,
         some (if e ≠ 0 then e
               else if bus.wr 4 0x60a8 v ≠ 0 then bus.wr 4 0x60a8 v else 0),
         if e ≠ 0 then ([] : List Ev) else [.wr 4 0x60a8 v]) := by
    intro d v e
    have h4 : REG_SIZE AP130X_DMA_SIZE = 4 := by decide
    have ha : REG_ADDR AP130X_DMA_SIZE = 0x60a8 := by decide
    rw [write_some_page0 bus d _ v e (by decide) (Or.inr h4), h4, ha]
  have Wsrc : ∀ (d : Dev) (v : Nat) (e : Int),
      ap130x_write bus d AP130X_DMA_SRC v (some e) =
        (if e ≠ 0 then e else bus.wr 4 0x60a0 v, d,
         some (if e ≠ 0 then e
               else if bus.wr 4 0x60a0 v ≠ 0 then bus.wr 4 0x60a0 v else 0),
         if e ≠ 0 then ([] : List Ev) else [.wr 4 0x60a0 v]) := by
    intro d v e
    have h4 : REG_SIZE AP130X_DMA_SRC = 4 := by decide
    have ha : REG_ADDR AP130X_DMA_SRC = 0x60a0 := by decide
    rw [write_some_page0 bus d _ v e (by decide) (Or.inr h4), h4, ha]
  have Wdst : ∀ (d : Dev) (v : Nat) (e : Int),
      ap130x_write bus d AP130X_DMA_DST v (some e) =
        (if e ≠ 0 then e else bus.wr 4 0x60a4 v, d,
         some (if e ≠ 0 then e
               else if bus.wr 4 0x60a4 v ≠ 0 then bus.wr 4 0x60a4 v else 0),
         if e ≠ 0 then ([] : List Ev) else [.wr 4 0x60a4 v]) := by
    intro d v e
    have h4 : REG_SIZE AP130X_DMA_DST = 4 := by decide
    have ha : REG_ADDR AP130X_DMA_DST = 0x60a4 := by decide
    rw [write_some_page0 bus d _ v e (by decide) (Or.inr h4), h4, ha]
  have Wctrl : ∀ (d : Dev) (v : Nat) (e : Int),
      ap130x_write bus d AP130X_DMA_CTRL v (some e) =
        (if e ≠ 0 then e else bus.wr 2 0x60ac v, d,
         some (if e ≠ 0 then e
               else if bus.wr 2 0x60ac v ≠ 0 then bus.wr 2 0x60ac v else 0),
         if e ≠ 0 then ([] : List Ev) else [.wr 2 0x60ac v]) := by
    intro d v e
    have h2 : REG_SIZE AP130X_DMA_CTRL = 2 := by decide
    have ha : REG_ADDR AP130X_DMA_CTRL = 0x60ac := by decide
    rw [write_some_page0 bus d _ v e (by decide) (Or.inl h2), h2, ha]
  have hsrcaddr : REG_ADDR AP130X_DMA_SRC = 0x60a0 := by decide
  rw [ap130x_sipm_write]
  simp only [hgt, if_false, dma_wait_idle_spec, hsrcaddr]
  by_cases herr : (bus.rd 2 0x60ac).1 < 0
  · simp only [herr, if_true]
    constructor
    · intro h0
      omega
    · intro w hw
      simp at hw
  · by_cases hbusy : (bus.rd 2 0x60ac).2 &&& AP130X_DMA_CTRL_MODE_MASK =
        AP130X_DMA_CTRL_MODE_IDLE
    · simp only [herr, if_false, hbusy, if_true]
      simp only [Wsize, Wsrc, Wdst, Wctrl]
      simp only [ne_eq, ite_not, if_true, if_false]
      by_cases hb1 : bus.wr 4 0x60a8 (REG_SIZE reg) = 0
      · by_cases hb2 : bus.wr 4 0x60a0 (val <<< 16 % 2 ^ 32 ||| 0x60a0) = 0
        · simp only [hb1, hb2, ite_self, if_pos rfl]
          constructor
          · split_ifs <;> intro h0 <;> first | omega | simp
          · split_ifs <;> intro w hw <;> simpa using hw
        · have hb2n : bus.wr 4 0x60a0 (val <<< 16 % 2 ^ 32 ||| 0x60a0) < 0 := by
            have := hwr 4 0x60a0 (val <<< 16 % 2 ^ 32 ||| 0x60a0)
            omega
          simp only [hb1, hb2, ite_self, if_pos rfl]
          constructor
          · split_ifs <;> intro h0 <;> first | omega | simp
          · split_ifs <;> intro w hw <;> simpa using hw
      · have hb1n : bus.wr 4 0x60a8 (REG_SIZE reg) < 0 := by
          have := hwr 4 0x60a8 (REG_SIZE reg)
          omega
        simp only [hb1, if_false]
        constructor
        · split_ifs <;> intro h0 <;> first | omega | simp
        · split_ifs <;> intro w hw <;> simpa using hw
    · simp only [herr, if_false, hbusy]
      have hto : (-ETIMEDOUT : Int) < 0 := by norm_num [ETIMEDOUT]
      simp only [if_false, hto, if_true]
      constructor
      · intro h0
        norm_num [ETIMEDOUT] at h0
      · intro w hw
        simp [List.mem_replicate] at hw

/-- C5: sensor-proxy shift quirks.  For every successful proxy read of
width 1 or 2, the returned value is the scratch-register word (the 32-bit
read-back of AP130X_DMA_DST at 0x60a4) shifted right by exactly
32 - width*8 bits; for every proxy write, the word placed in the
scratch/source register AP130X_DMA_SRC is the input value shifted left by
exactly 16 bits (truncated to 32 bits) combined with the DMA_SRC address,
independently of the width — asymmetric to the read path. -/
theorem C5_sipm_shift_quirks (bus : Bus) (dev : Dev)
    (i2c_addr port reg val : Nat)
    (hsz : REG_SIZE reg = 1 ∨ REG_SIZE reg = 2)
    (hwr : ∀ (s q v : Nat), bus.wr s q v ≤ 0) :
    ((ap130x_sipm_read bus dev i2c_addr port reg).1 = 0 →
       (ap130x_sipm_read bus dev i2c_addr port reg).2.1 =
         (bus.rd 4 0x60a4).2 >>> (32 - REG_SIZE reg * 8)) ∧
    ((ap130x_sipm_write bus dev i2c_addr port reg val).1 = 0 →
       Ev.wr 4 0x60a0 (((val <<< 16) % 2 ^ 32) ||| 0x60a0) ∈
         (ap130x_sipm_write bus dev i2c_addr port reg val).2.2) ∧
    (∀ w : Nat,
       Ev.wr 4 0x60a0 w ∈ (ap130x_sipm_write bus dev i2c_addr port reg val).2.2 →
       w = ((val <<< 16) % 2 ^ 32) ||| 0x60a0) :=
  ⟨sipm_read_value_helper bus dev i2c_addr port reg hsz,
   (sipm_write_scratch_helper bus dev i2c_addr port reg val hsz hwr).1,
   (sipm_write_scratch_helper bus dev i2c_addr port reg val hsz hwr).2⟩

/-- Witness for C5 at a concrete bus and a width-1 sensor register. -/
theorem C5_sipm_shift_quirks_witness :
    ((ap130x_sipm_read okBus ⟨0⟩ 0x3c 0 0x01000100).1 = 0 →
       (ap130x_sipm_read okBus ⟨0⟩ 0x3c 0 0x01000100).2.1 =
         (okBus.rd 4 0x60a4).2 >>> (32 - REG_SIZE 0x01000100 * 8)) ∧
    ((ap130x_sipm_write okBus ⟨0⟩ 0x3c 0 0x01000100 0xabcd).1 = 0 →
       Ev.wr 4 0x60a0 (((0xabcd <<< 16) % 2 ^ 32) ||| 0x60a0) ∈
         (ap130x_sipm_write okBus ⟨0⟩ 0x3c 0 0x01000100 0xabcd).2.2) ∧
    (∀ w : Nat,
       Ev.wr 4 0x60a0 w ∈
         (ap130x_sipm_write okBus ⟨0⟩ 0x3c 0 0x01000100 0xabcd).2.2 →
       w = ((0xabcd <<< 16) % 2 ^ 32) ||| 0x60a0) :=
  C5_sipm_shift_quirks okBus ⟨0⟩ 0x3c 0 0x01000100 0xabcd
    (Or.inl (by decide)) (fun _ _ _ => le_refl 0)

/-- C6 counterexample: a descriptor with width tag 0 (neither 1 nor 2) is
not rejected by the sensor proxy: the size check is size > 2, so the read
and the write both proceed, program the DMA engine (a write of the
transfer size to AP130X_DMA_SIZE appears in the trace) and succeed. -/
theorem C6_counterexample_width0 :
    REG_SIZE 0x1234 ≠ 1 ∧ REG_SIZE 0x1234 ≠ 2 ∧
    (ap130x_sipm_read okBus ⟨0⟩ 0x3c 0 0x1234).1 = 0 ∧
    (ap130x_sipm_read okBus ⟨0⟩ 0x3c 0 0x1234).2.2.2 ≠ [] ∧
    Ev.wr 4 0x60a8 0 ∈ (ap130x_sipm_read okBus ⟨0⟩ 0x3c 0 0x1234).2.2.2 ∧
    (ap130x_sipm_write okBus ⟨0⟩ 0x3c 0 0x1234 5).1 = 0 ∧
    Ev.wr 4 0x60a8 0 ∈ (ap130x_sipm_write okBus ⟨0⟩ 0x3c 0 0x1234 5).2.2 := by
  decide

/-- C6 (amended): for every register descriptor whose width tag exceeds 2
bytes, both the proxy read and the proxy write fail with -EINVAL without
performing any DMA programming (empty trace, state unchanged); a width tag
of 0 passes the check. -/
theorem C6_sipm_width_precondition (bus : Bus) (dev : Dev)
    (i2c_addr port reg val : Nat) (h : REG_SIZE reg > 2) :
    ap130x_sipm_read bus dev i2c_addr port reg = (-EINVAL, 0, dev, []) ∧
    ap130x_sipm_write bus dev i2c_addr port reg val = (-EINVAL, dev, []) := by
  constructor
  · rw [ap130x_sipm_read]
    simp [h]
  · rw [ap130x_sipm_write]
    simp [h]

/-- Witness for the amended C6 at a 4-byte-wide descriptor. -/
theorem C6_sipm_width_precondition_witness :
    ap130x_sipm_read okBus ⟨0⟩ 0x3c 0 (REG_32BIT 0x0100) =
      (-EINVAL, 0, ⟨0⟩, []) ∧
    ap130x_sipm_write okBus ⟨0⟩ 0x3c 0 (REG_32BIT 0x0100) 5 =
      (-EINVAL, ⟨0⟩, []) :=
  C6_sipm_width_precondition okBus ⟨0⟩ 0x3c 0 (REG_32BIT 0x0100) 5 (by decide)

/-! ## Chip detection (ap130x_detect_chip) -/

/-- Embedding of ap130x_detect_chip: read the chip-version register, then
the revision register (for diagnostics only), then compare the version
with AP130X_CHIP_ID; any read failure aborts with that read's error. -/
def ap130x_detect_chip (bus : Bus) (dev : Dev) : Int × Dev × List Ev :=
  let rv := ap130x_read bus dev AP130X_CHIP_VERSION
  if rv.1 ≠ 0 then (rv.1, rv.2.2.1, rv.2.2.2)
  else
    let rr := ap130x_read bus rv.2.2.1 AP130X_CHIP_REV
    if rr.1 ≠ 0 then (rr.1, rr.2.2.1, rv.2.2.2 ++ rr.2.2.2)
    else if rv.2.1 ≠ AP130X_CHIP_ID then
      (-EINVAL, rr.2.2.1, rv.2.2.2 ++ rr.2.2.2)
    else (0, rr.2.2.1, rv.2.2.2 ++ rr.2.2.2)

theorem chip_version_read (bus : Bus) (dev : Dev) :
    ap130x_read bus dev AP130X_CHIP_VERSION =
      ((bus.rd 2 0x0000).1, (bus.rd 2 0x0000).2, dev, [.rd 2 0x0000]) := by
  have hs : REG_SIZE AP130X_CHIP_VERSION = 2 := by decide
  have ha : REG_ADDR AP130X_CHIP_VERSION = 0x0000 := by decide
  rw [ap130x_read_page0_full bus dev _ (by decide),
    ap130x_read_raw_spec bus _ (Or.inl hs), hs, ha]

theorem chip_rev_read (bus : Bus) (dev : Dev) :
    ap130x_read bus dev AP130X_CHIP_REV =
      ((bus.rd 2 0x0050).1, (bus.rd 2 0x0050).2, dev, [.rd 2 0x0050]) := by
  have hs : REG_SIZE AP130X_CHIP_REV = 2 := by decide
  have ha : REG_ADDR AP130X_CHIP_REV = 0x0050 := by decide
  rw [ap130x_read_page0_full bus dev _ (by decide),
    ap130x_read_raw_spec bus _ (Or.inl hs), hs, ha]

/-- C10: the diagnostics-only revision read is load-bearing.  When the
version read succeeds and would match AP130X_CHIP_ID but the revision read
fails, chip detection aborts with the revision read's error instead of
succeeding; the revision register is read before the version comparison,
as witnessed by the trace containing both reads in order. -/
theorem C10_revision_read_load_bearing (bus : Bus) (dev : Dev) (e : Int)
    (hv : bus.rd 2 0x0000 = (0, AP130X_CHIP_ID))
    (hr : (bus.rd 2 0x0050).1 = e) (he : e ≠ 0) :
    (ap130x_detect_chip bus dev).1 = e ∧
    (ap130x_detect_chip bus dev).2.2 = [.rd 2 0x0000, .rd 2 0x0050] := by
  rw [ap130x_detect_chip]
  simp only [chip_version_read, chip_rev_read, hv, hr, he]
  simp [he]

/-- Witness for C10: a bus whose revision read fails with -EIO (-5). -/
theorem C10_revision_read_load_bearing_witness :
    (ap130x_detect_chip
      ⟨fun _ _ _ => 0,
       fun _ a => if a = 0x0050 then (-5, 0) else (0, AP130X_CHIP_ID)⟩
      ⟨0⟩).1 = -5 ∧
    (ap130x_detect_chip
      ⟨fun _ _ _ => 0,
       fun _ a => if a = 0x0050 then (-5, 0) else (0, AP130X_CHIP_ID)⟩
      ⟨0⟩).2.2 = [.rd 2 0x0000, .rd 2 0x0050] :=
  C10_revision_read_load_bearing
    ⟨fun _ _ _ => 0,
     fun _ a => if a = 0x0050 then (-5, 0) else (0, AP130X_CHIP_ID)⟩
    ⟨0⟩ (-5) (by norm_num) (by norm_num) (by norm_num)

/-! ## Firmware boot sequencer (ap130x_hw_init)

ap130x_hw_init calls collaborators whose internals are outside this core
(request_firmware, regulator/GPIO/clock power sequencing) and
ap130x_load_firmware, whose outcome per attempt depends on the bus and on
the firmware CRC comparison (the CRC branch is present in the source but
compiled out with "#if 0"); they are modelled as oracles giving the int
return code of each call, indexed by the retry-loop iteration for the
calls inside the loop.  The boot events record the order of the calls. -/

structure BootEnv where
  request_fw : Int
  fw_size : Nat
  pll_init_size : Nat
  power_on_sensors : Int
  power_on : Nat → Int
  detect : Nat → Int
  load : Nat → Int

inductive BootEv where
  | requestFw | powerOnSensors | powerOn | detectChip | loadFw
  | powerOff | powerOffSensors | releaseFw
  deriving DecidableEq, Repr

/-- Embedding of ap130x_request_firmware: the request itself, then the
minimum-size check (16-byte header), then pll_init_size ≤ payload size.
The Bool records whether the firmware blob is held by the driver when the
function returns (request_firmware succeeded). -/
def ap130x_request_firmware (env : BootEnv) : Int × Bool :=
  if env.request_fw ≠ 0 then (env.request_fw, false)
  else if env.fw_size < 16 then (-EINVAL, true)
  else if env.pll_init_size > env.fw_size - 16 then (-EINVAL, true)
  else (0, true)

inductive LoopExit where
  | ok
  | errPower (e : Int)
  | errPowerSensors (e : Int)
  deriving DecidableEq, Repr

def MAX_FW_LOAD_RETRIES : Nat := 3

/-- Embedding of the retry loop of ap130x_hw_init:
for (retries = 0; retries < MAX_FW_LOAD_RETRIES; ++retries) power on the
ISP (failure → error_power_sensors), detect the chip (failure →
error_power), load the firmware (success → break; non-EAGAIN failure →
error_power; EAGAIN → power off and retry); an exhausted loop fails with
-ETIMEDOUT via error_power_sensors.  fuel counts the remaining
iterations, k the current retries value (so the oracles see the attempt
index). -/
def ap130x_hw_init_loop (env : BootEnv) : Nat → Nat → LoopExit × List BootEv
  | 0, _ => (.errPowerSensors (-ETIMEDOUT), [])
  | fuel + 1, k =>
    if env.power_on k < 0 then (.errPowerSensors (env.power_on k), [.powerOn])
    else if env.detect k ≠ 0 then
      (.errPower (env.detect k), [.powerOn, .detectChip])
    else if env.load k = 0 then (.ok, [.powerOn, .detectChip, .loadFw])
    else if env.load k ≠ -EAGAIN then
      (.errPower (env.load k), [.powerOn, .detectChip, .loadFw])
    else
      let rest := ap130x_hw_init_loop env fuel (k + 1)
      (rest.1, [.powerOn, .detectChip, .loadFw, .powerOff] ++ rest.2)

/-- Embedding of ap130x_hw_init: request and validate the firmware, power
the sensors, run the bounded retry loop, and unwind on the error paths
(error_power powers the ISP off first; error_power_sensors powers the
sensors off; error_firmware releases the firmware image last).  The
successful exit returns 0 without releasing the firmware image. -/
def ap130x_hw_init (env : BootEnv) : Int × List BootEv :=
  let rq := ap130x_request_firmware env
  if rq.1 ≠ 0 then (rq.1, [.requestFw])
  else if env.power_on_sensors < 0 then
    (env.power_on_sensors, [.requestFw, .powerOnSensors, .releaseFw])
  else
    let lr := ap130x_hw_init_loop env MAX_FW_LOAD_RETRIES 0
    match lr.1 with
    | .ok => (0, [.requestFw, .powerOnSensors] ++ lr.2)
    | .errPower e =>
      (e, [.requestFw, .powerOnSensors] ++ lr.2 ++
          [.powerOff, .powerOffSensors, .releaseFw])
    | .errPowerSensors e =>
      (e, [.requestFw, .powerOnSensors] ++ lr.2 ++
          [.powerOffSensors, .releaseFw])

/-- Whether the firmware blob is still held when ap130x_hw_init returns:
it was obtained by request_firmware and no release happened. -/
def fwHeldAfter (env : BootEnv) (evs : List BootEv) : Bool :=
  (ap130x_request_firmware env).2 && !(evs.contains .releaseFw)

/-- A validated firmware request: the blob is obtained and passes both
header checks. -/
theorem request_firmware_ok (env : BootEnv) (hrq : env.request_fw = 0)
    (hsz : 16 ≤ env.fw_size) (hpll : env.pll_init_size ≤ env.fw_size - 16) :
    ap130x_request_firmware env = (0, true) := by
  have h1 : ¬ env.fw_size < 16 := not_lt.mpr hsz
  have h2 : ¬ env.pll_init_size > env.fw_size - 16 := not_lt.mpr hpll
  simp [ap130x_request_firmware, hrq, h1, h2]

/-- C2: boot retry policy.  With a firmware source whose load fails with
EAGAIN (CRC mismatch) exactly twice and then succeeds, ap130x_hw_init
performs exactly 3 power-ons and returns 0 (ready); with a source whose
load always fails with EAGAIN, it returns -ETIMEDOUT (retries exceeded)
after exactly 3 attempts — never a 4th power-on — having powered the ISP
off after each attempt and the sensors off on the way out, so all power
rails are off. -/
theorem C2_boot_retry_policy (env1 env2 : BootEnv)
    (h1rq : env1.request_fw = 0) (h1sz : 16 ≤ env1.fw_size)
    (h1pll : env1.pll_init_size ≤ env1.fw_size - 16)
    (h1ps : ¬ env1.power_on_sensors < 0)
    (h1po : ∀ k, env1.power_on k = 0) (h1d : ∀ k, env1.detect k = 0)
    (h1l0 : env1.load 0 = -EAGAIN) (h1l1 : env1.load 1 = -EAGAIN)
    (h1l2 : env1.load 2 = 0)
    (h2rq : env2.request_fw = 0) (h2sz : 16 ≤ env2.fw_size)
    (h2pll : env2.pll_init_size ≤ env2.fw_size - 16)
    (h2ps : ¬ env2.power_on_sensors < 0)
    (h2po : ∀ k, env2.power_on k = 0) (h2d : ∀ k, env2.detect k = 0)
    (h2l : ∀ k, env2.load k = -EAGAIN) :
    ((ap130x_hw_init env1).1 = 0 ∧
     (ap130x_hw_init env1).2.count .powerOn = 3 ∧
     (ap130x_hw_init env1).2.count .powerOff = 2) ∧
    ((ap130x_hw_init env2).1 = -ETIMEDOUT ∧
     (ap130x_hw_init env2).2.count .powerOn = 3 ∧
     (ap130x_hw_init env2).2.count .powerOff = 3 ∧
     (ap130x_hw_init env2).2.count .powerOnSensors = 1 ∧
     (ap130x_hw_init env2).2.count .powerOffSensors = 1) := by
  have hrq1 := request_firmware_ok env1 h1rq h1sz h1pll
  have hrq2 := request_firmware_ok env2 h2rq h2sz h2pll
  have hl1 : ap130x_hw_init_loop env1 MAX_FW_LOAD_RETRIES 0 =
      (.ok, [.powerOn, .detectChip, .loadFw, .powerOff,
             .powerOn, .detectChip, .loadFw, .powerOff,
             .powerOn, .detectChip, .loadFw]) := by
    rw [MAX_FW_LOAD_RETRIES]
    rw [ap130x_hw_init_loop]
    simp only [h1po, h1d, h1l0]
    norm_num [EAGAIN]
    rw [ap130x_hw_init_loop]
    simp only [h1po, h1d, h1l1]
    norm_num [EAGAIN]
    rw [ap130x_hw_init_loop]
    simp only [h1po, h1d, h1l2]
    norm_num
  have hl2 : ap130x_hw_init_loop env2 MAX_FW_LOAD_RETRIES 0 =
      (.errPowerSensors (-ETIMEDOUT),
       [.powerOn, .detectChip, .loadFw, .powerOff,
        .powerOn, .detectChip, .loadFw, .powerOff,
        .powerOn, .detectChip, .loadFw, .powerOff]) := by
    rw [MAX_FW_LOAD_RETRIES]
    rw [ap130x_hw_init_loop]
    simp only [h2po, h2d, h2l]
    norm_num [EAGAIN]
    rw [ap130x_hw_init_loop]
    simp only [h2po, h2d, h2l]
    norm_num [EAGAIN]
    rw [ap130x_hw_init_loop]
    simp only [h2po, h2d, h2l]
    norm_num [EAGAIN]
    rw [ap130x_hw_init_loop]
    norm_num
  constructor
  · rw [ap130x_hw_init]
    simp only [hrq1, hl1, h1ps]
    norm_num
    decide
  · rw [ap130x_hw_init]
    simp only [hrq2, hl2, h2ps]
    norm_num
    decide

/-- Boot environment whose firmware load fails with EAGAIN twice and then
succeeds; everything else succeeds. -/
def bootEnvTwoCrcFails : BootEnv :=
  ⟨0, 100, 10, 0, fun _ => 0, fun _ => 0,
   fun k => if k < 2 then -EAGAIN else 0⟩

/-- Boot environment whose firmware load always fails with EAGAIN. -/
def bootEnvAlwaysCrcFails : BootEnv :=
  ⟨0, 100, 10, 0, fun _ => 0, fun _ => 0, fun _ => -EAGAIN⟩

/-- Witness for C2 on the two concrete boot environments. -/
theorem C2_boot_retry_policy_witness :
    ((ap130x_hw_init bootEnvTwoCrcFails).1 = 0 ∧
     (ap130x_hw_init bootEnvTwoCrcFails).2.count .powerOn = 3 ∧
     (ap130x_hw_init bootEnvTwoCrcFails).2.count .powerOff = 2) ∧
    ((ap130x_hw_init bootEnvAlwaysCrcFails).1 = -ETIMEDOUT ∧
     (ap130x_hw_init bootEnvAlwaysCrcFails).2.count .powerOn = 3 ∧
     (ap130x_hw_init bootEnvAlwaysCrcFails).2.count .powerOff = 3 ∧
     (ap130x_hw_init bootEnvAlwaysCrcFails).2.count .powerOnSensors = 1 ∧
     (ap130x_hw_init bootEnvAlwaysCrcFails).2.count .powerOffSensors = 1) :=
  C2_boot_retry_policy bootEnvTwoCrcFails bootEnvAlwaysCrcFails
    rfl (by norm_num [bootEnvTwoCrcFails]) (by norm_num [bootEnvTwoCrcFails])
    (by norm_num [bootEnvTwoCrcFails]) (fun _ => rfl) (fun _ => rfl)
    (by norm_num [bootEnvTwoCrcFails]) (by norm_num [bootEnvTwoCrcFails])
    (by norm_num [bootEnvTwoCrcFails])
    rfl (by norm_num [bootEnvAlwaysCrcFails])
    (by norm_num [bootEnvAlwaysCrcFails]) (by norm_num [bootEnvAlwaysCrcFails])
    (fun _ => rfl) (fun _ => rfl) (fun _ => rfl)

/-- The retry loop itself never releases the firmware image. -/
theorem hw_init_loop_no_release (env : BootEnv) :
    ∀ (fuel k : Nat), BootEv.releaseFw ∉ (ap130x_hw_init_loop env fuel k).2 := by
  intro fuel
  induction fuel with
  | zero => intro k; simp [ap130x_hw_init_loop]
  | succ fuel ih =>
    intro k
    rw [ap130x_hw_init_loop]
    split_ifs <;> simp_all [List.mem_append]

/-- Loop error exits carry a non-zero error code. -/
theorem hw_init_loop_err_ne (env : BootEnv) :
    ∀ (fuel k : Nat) (e : Int),
      ((ap130x_hw_init_loop env fuel k).1 = .errPower e → e ≠ 0) ∧
      ((ap130x_hw_init_loop env fuel k).1 = .errPowerSensors e → e ≠ 0) := by
  intro fuel
  induction fuel with
  | zero =>
    intro k e
    constructor
    · intro h
      simp [ap130x_hw_init_loop] at h
    · intro h
      simp [ap130x_hw_init_loop] at h
      rw [← h]
      norm_num [ETIMEDOUT]
  | succ fuel ih =>
    intro k e
    rw [ap130x_hw_init_loop]
    split_ifs with hpo hd hl0 hlagain
    · constructor
      · intro h
        simp at h
      · intro h
        simp only [LoopExit.errPowerSensors.injEq] at h
        omega
    · constructor
      · intro h
        simp only [LoopExit.errPower.injEq] at h
        rw [h] at hd
        exact hd
      · intro h
        simp at h
    · constructor
      · intro h
        simp at h
      · intro h
        simp at h
    · constructor
      · intro h
        simp only [LoopExit.errPower.injEq] at h
        rw [h] at hl0
        exact hl0
      · intro h
        simp at h
    · exact ih (k + 1) e

/-- C7 (amended): after a firmware request that succeeded and validated,
every failing exit of ap130x_hw_init releases the firmware image as the
very last cleanup step (after the power-off steps), while the successful
exit returns with the image still held — it is released only later, by
ap130x_remove.  (A request/validation failure exits before any cleanup.) -/
theorem C7_firmware_release_policy (env : BootEnv)
    (hrq : env.request_fw = 0) (hsz : 16 ≤ env.fw_size)
    (hpll : env.pll_init_size ≤ env.fw_size - 16) :
    ((ap130x_hw_init env).1 ≠ 0 →
       ∃ t, (ap130x_hw_init env).2 = t ++ [.releaseFw]) ∧
    ((ap130x_hw_init env).1 = 0 →
       BootEv.releaseFw ∉ (ap130x_hw_init env).2 ∧
       fwHeldAfter env (ap130x_hw_init env).2 = true) := by
  have hnr := hw_init_loop_no_release env MAX_FW_LOAD_RETRIES 0
  have hne := hw_init_loop_err_ne env MAX_FW_LOAD_RETRIES 0
  have hrqok := request_firmware_ok env hrq hsz hpll
  rw [ap130x_hw_init]
  simp only [hrqok]
  norm_num
  by_cases hps : env.power_on_sensors < 0
  · simp only [hps, if_true]
    constructor
    · intro _
      exact ⟨[.requestFw, .powerOnSensors], rfl⟩
    · intro h0
      omega
  · simp only [hps, if_false]
    rcases hloop : ap130x_hw_init_loop env MAX_FW_LOAD_RETRIES 0 with ⟨ex, evs⟩
    rw [hloop] at hnr hne
    cases ex with
    | ok =>
      have hmem : BootEv.releaseFw ∉
          (BootEv.requestFw :: BootEv.powerOnSensors :: evs) := by
        simp only [List.mem_cons]
        push_neg
        exact ⟨by decide, by decide, by simpa using hnr⟩
      have hc : ((BootEv.requestFw :: BootEv.powerOnSensors :: evs).contains
          BootEv.releaseFw) = false := by
        simpa using hmem
      simp only
      constructor
      · intro h0
        simp at h0
      · intro _
        constructor
        · simpa using hmem
        · simp [fwHeldAfter, hrqok, hc]
          simpa using hnr
    | errPower e =>
      simp only
      constructor
      · intro _
        exact ⟨[.requestFw, .powerOnSensors] ++ evs ++
          [.powerOff, .powerOffSensors], by simp⟩
      · intro h0
        exact absurd h0 ((hne e).1 rfl)
    | errPowerSensors e =>
      simp only
      constructor
      · intro _
        exact ⟨[.requestFw, .powerOnSensors] ++ evs ++ [.powerOffSensors],
          by simp⟩
      · intro h0
        exact absurd h0 ((hne e).2 rfl)

/-- Boot environment in which every step succeeds. -/
def bootEnvAllOk : BootEnv := ⟨0, 100, 10, 0, fun _ => 0, fun _ => 0, fun _ => 0⟩

/-- C7 counterexample: on successful completion the boot sequencer returns
with the firmware image still held — no release happens on the successful
exit (the image is only released by ap130x_remove, or on the error paths),
contradicting the claim that the image is released on every exit. -/
theorem C7_counterexample_success_retains_firmware :
    (ap130x_hw_init bootEnvAllOk).1 = 0 ∧
    BootEv.releaseFw ∉ (ap130x_hw_init bootEnvAllOk).2 ∧
    fwHeldAfter bootEnvAllOk (ap130x_hw_init bootEnvAllOk).2 = true := by
  decide

/-- Boot environment whose firmware load fails fatally (-EIO class error). -/
def bootEnvFatalLoad : BootEnv :=
  ⟨0, 100, 10, 0, fun _ => 0, fun _ => 0, fun _ => -5⟩

/-- Witness for the amended C7 on a fatally failing load. -/
theorem C7_firmware_release_policy_witness :
    ((ap130x_hw_init bootEnvFatalLoad).1 ≠ 0 →
       ∃ t, (ap130x_hw_init bootEnvFatalLoad).2 = t ++ [.releaseFw]) ∧
    ((ap130x_hw_init bootEnvFatalLoad).1 = 0 →
       BootEv.releaseFw ∉ (ap130x_hw_init bootEnvFatalLoad).2 ∧
       fwHeldAfter bootEnvFatalLoad (ap130x_hw_init bootEnvFatalLoad).2 =
         true) :=
  C7_firmware_release_policy bootEnvFatalLoad rfl
    (by norm_num [bootEnvFatalLoad]) (by norm_num [bootEnvFatalLoad])

/-! ## Stream stall controller (ap130x_stall / ap130x_s_stream) -/

def AP130X_SYS_START_PLL_LOCK : Nat := 1 <<< 15
def AP130X_SYS_START_STALL_STATUS : Nat := 1 <<< 9
def AP130X_SYS_START_STALL_EN : Nat := 1 <<< 8
def AP130X_SYS_START_STALL_MODE_DISABLED : Nat := 1 <<< 6
def AP130X_ADV_IRQ_SYS_INTE_SIPM : Nat := 3 <<< 6
def AP130X_ADV_IRQ_SYS_INTE_SIPS_FIFO_WRITE : Nat := 1 <<< 3
def AP130X_PREVIEW_HINF_CTRL : Nat := REG_16BIT 0x2030
def AP130X_PREVIEW_HINF_CTRL_SPOOF : Nat := 1 <<< 4
def AP130X_PREVIEW_WIDTH : Nat := REG_16BIT 0x2000
def AP130X_PREVIEW_HEIGHT : Nat := REG_16BIT 0x2002
def AP130X_PREVIEW_OUT_FMT : Nat := REG_16BIT 0x2012

/-- Embedding of ap130x_stall.  stall = true: two chained SYS_START writes
(stall request then stall enable), a 200 ms settle (no observable state),
then a rewrite of the advanced-page interrupt-enable register; any error
in the first chain is returned before the interrupt write.  stall = false:
a single SYS_START write clearing the stall. -/
def ap130x_stall (bus : Bus) (dev : Dev) (stall : Bool) : Int × Dev × List Ev :=
  if stall then
    let s1 := ap130x_write bus dev AP130X_SYS_START
      (AP130X_SYS_START_PLL_LOCK |||
       AP130X_SYS_START_STALL_MODE_DISABLED) (some 0)
    let s2 := ap130x_write bus s1.2.1 AP130X_SYS_START
      (AP130X_SYS_START_PLL_LOCK ||| AP130X_SYS_START_STALL_EN |||
       AP130X_SYS_START_STALL_MODE_DISABLED) s1.2.2.1
    if s2.1 < 0 then (s2.1, s2.2.1, s1.2.2.2 ++ s2.2.2.2)
    else
      -- msleep(200)
      let s3 := ap130x_write bus s2.2.1 AP130X_ADV_IRQ_SYS_INTE
        (AP130X_ADV_IRQ_SYS_INTE_SIPM |||
         AP130X_ADV_IRQ_SYS_INTE_SIPS_FIFO_WRITE) none
      (s3.1, s3.2.1, s1.2.2.2 ++ s2.2.2.2 ++ s3.2.2.2)
  else
    let s := ap130x_write bus dev AP130X_SYS_START
      (AP130X_SYS_START_PLL_LOCK ||| AP130X_SYS_START_STALL_STATUS |||
       AP130X_SYS_START_STALL_EN |||
       AP130X_SYS_START_STALL_MODE_DISABLED) none
    (s.1, s.2.1, s.2.2.2)

/-- Embedding of ap130x_configure: program the output interface, width,
height and format through one sticky error slot, then apply the control
handler (the tunable-parameter table, out of scope here: its register
writes are the ctrlEvs parameter; see ap130x_s_ctrl, which touches only
page-0 control registers and never AP130X_SYS_START). -/
def ap130x_configure (bus : Bus) (ctrlEvs : List Ev) (dev : Dev)
    (data_lanes width height out_fmt : Nat) : Int × Dev × List Ev :=
  let s1 := ap130x_write bus dev AP130X_PREVIEW_HINF_CTRL
    (AP130X_PREVIEW_HINF_CTRL_SPOOF ||| data_lanes) (some 0)
  let s2 := ap130x_write bus s1.2.1 AP130X_PREVIEW_WIDTH width s1.2.2.1
  let s3 := ap130x_write bus s2.2.1 AP130X_PREVIEW_HEIGHT height s2.2.2.1
  let s4 := ap130x_write bus s3.2.1 AP130X_PREVIEW_OUT_FMT out_fmt s3.2.2.1
  let t := s1.2.2.2 ++ s2.2.2.2 ++ s3.2.2.2 ++ s4.2.2.2
  if s4.1 < 0 then (s4.1, s4.2.1, t)
  else (0, s4.2.1, t ++ ctrlEvs)

/-- Device state seen by the stream controller: transport state plus the
streaming flag (guarded by the device lock in the driver). -/
structure SDev where
  dev : Dev
  streaming : Bool
  deriving DecidableEq, Repr

/-- Embedding of ap130x_s_stream: no-op when enable equals the current
streaming state; on enable, configure then un-stall and set streaming only
on success; on disable, stall and clear streaming only on success. -/
def ap130x_s_stream (bus : Bus) (ctrlEvs : List Ev)
    (data_lanes width height out_fmt : Nat) (sd : SDev) (enable : Bool) :
    Int × SDev × List Ev :=
  if enable = sd.streaming then (0, sd, [])
  else if enable then
    let c := ap130x_configure bus ctrlEvs sd.dev data_lanes width height out_fmt
    if c.1 < 0 then (c.1, ⟨c.2.1, sd.streaming⟩, c.2.2)
    else
      let st := ap130x_stall bus c.2.1 false
      (st.1, ⟨st.2.1, if st.1 = 0 then true else sd.streaming⟩,
       c.2.2 ++ st.2.2)
  else
    let st := ap130x_stall bus sd.dev true
    (st.1, ⟨st.2.1, if st.1 = 0 then false else sd.streaming⟩, st.2.2)

/-- Predicate: a bus event is a write of the stall register AP130X_SYS_START
(16-bit space, address 0x601a). -/
def isStallWrite : Ev → Bool
  | .wr size addr _ => size == 2 && addr == 0x601a
  | .rd _ _ => false

/-- Number of stall-register writes in a trace. -/
def stallWrites (t : List Ev) : Nat := (t.filter isStallWrite).length

theorem body_ret_hit (bus : Bus) (dev : Dev) (reg val : Nat)
    (hp : REG_PAGE reg ≠ 0) (hc : dev.reg_page = REG_PAGE reg) :
    (ap130x_write_body bus dev reg val).1 =
      (ap130x_write_raw bus (ADV_REG reg) val).1 := by
  simp [ap130x_write_body, hp, hc]

theorem body_ret_miss (bus : Bus) (dev : Dev) (reg val : Nat)
    (hp : REG_PAGE reg ≠ 0) (hc : dev.reg_page ≠ REG_PAGE reg)
    (hok : ¬ bus.wr 4 0xf038 (REG_PAGE reg) < 0) :
    (ap130x_write_body bus dev reg val).1 =
      (ap130x_write_raw bus (ADV_REG reg) val).1 := by
  simp [ap130x_write_body, hp, hc, write_raw_advanced_base, hok]

/-- Full characterization of ap130x_write with a NULL error slot on a
page-0 descriptor. -/
theorem write_none_page0 (bus : Bus) (d : Dev) (reg val : Nat)
    (hp : REG_PAGE reg = 0) (hs : REG_SIZE reg = 2 ∨ REG_SIZE reg = 4) :
    ap130x_write bus d reg val none =
      (bus.wr (REG_SIZE reg) (REG_ADDR reg) val, d, none,
       [.wr (REG_SIZE reg) (REG_ADDR reg) val]) := by
  simp [ap130x_write, body_page0_full bus d reg val hp,
    ap130x_write_raw_spec bus reg val hs]

/-- On a bus on which every write succeeds, a clean sticky page-0 write
returns 0 with a clean slot. -/
theorem write_clean_page0_ok (bus : Bus)
    (hwr0 : ∀ (s a v : Nat), bus.wr s a v = 0) (d : Dev) (reg val : Nat)
    (hp : REG_PAGE reg = 0) (hs : REG_SIZE reg = 2 ∨ REG_SIZE reg = 4) :
    ap130x_write bus d reg val (some 0) =
      (0, d, some 0, [.wr (REG_SIZE reg) (REG_ADDR reg) val]) := by
  rw [write_clean_page0 bus d reg val hp hs, hwr0]
  simp

/-- Un-stalling on an all-success bus: exactly one SYS_START write. -/
theorem stall_false_ok (bus : Bus)
    (hwr0 : ∀ (s a v : Nat), bus.wr s a v = 0) (d : Dev) :
    ap130x_stall bus d false =
      (0, d, [.wr 2 0x601a
        (AP130X_SYS_START_PLL_LOCK ||| AP130X_SYS_START_STALL_STATUS |||
         AP130X_SYS_START_STALL_EN |||
         AP130X_SYS_START_STALL_MODE_DISABLED)]) := by
  have hs : REG_SIZE AP130X_SYS_START = 2 := by decide
  have ha : REG_ADDR AP130X_SYS_START = 0x601a := by decide
  rw [ap130x_stall]
  simp only [Bool.false_eq_true, if_false]
  rw [write_none_page0 bus d _ _ (by decide) (Or.inl hs), hs, ha, hwr0]

/-- Stalling on an all-success bus returns 0 (whatever the page cache). -/
theorem stall_true_ok (bus : Bus)
    (hwr0 : ∀ (s a v : Nat), bus.wr s a v = 0) (d : Dev) :
    (ap130x_stall bus d true).1 = 0 := by
  have hs : REG_SIZE AP130X_SYS_START = 2 := by decide
  rw [ap130x_stall]
  simp only [if_true]
  rw [write_clean_page0_ok bus hwr0 d _ _ (by decide) (Or.inl hs)]
  simp only
  rw [write_clean_page0_ok bus hwr0 d _ _ (by decide) (Or.inl hs)]
  simp only
  have h00 : ¬ (0 : Int) < 0 := by norm_num
  simp only [h00, if_false]
  have hpadv : REG_PAGE AP130X_ADV_IRQ_SYS_INTE ≠ 0 := by decide
  have hradv : (ap130x_write_raw bus (ADV_REG AP130X_ADV_IRQ_SYS_INTE)
      (AP130X_ADV_IRQ_SYS_INTE_SIPM |||
       AP130X_ADV_IRQ_SYS_INTE_SIPS_FIFO_WRITE)).1 = 0 := by
    have h4 : REG_SIZE (ADV_REG AP130X_ADV_IRQ_SYS_INTE) = 4 := by decide
    rw [ap130x_write_raw_spec bus _ _ (Or.inr h4), hwr0]
  rw [write_none_ret]
  by_cases hc : d.reg_page = REG_PAGE AP130X_ADV_IRQ_SYS_INTE
  · rw [body_ret_hit bus d _ _ hpadv hc, hradv]
  · have hok : ¬ bus.wr 4 0xf038 (REG_PAGE AP130X_ADV_IRQ_SYS_INTE) < 0 := by
      rw [hwr0]
      norm_num
    rw [body_ret_miss bus d _ _ hpadv hc hok, hradv]

/-- Configuration on an all-success bus: the four preview writes followed
by the control-handler writes, returning 0. -/
theorem configure_ok (bus : Bus)
    (hwr0 : ∀ (s a v : Nat), bus.wr s a v = 0) (ctrlEvs : List Ev) (d : Dev)
    (data_lanes width height out_fmt : Nat) :
    ap130x_configure bus ctrlEvs d data_lanes width height out_fmt =
      (0, d, [.wr 2 0x2030 (AP130X_PREVIEW_HINF_CTRL_SPOOF ||| data_lanes),
              .wr 2 0x2000 width, .wr 2 0x2002 height,
              .wr 2 0x2012 out_fmt] ++ ctrlEvs) := by
  rw [ap130x_configure]
  rw [write_clean_page0_ok bus hwr0 d _ _ (by decide)
    (Or.inl (by decide : REG_SIZE AP130X_PREVIEW_HINF_CTRL = 2))]
  simp only
  rw [write_clean_page0_ok bus hwr0 d _ _ (by decide)
    (Or.inl (by decide : REG_SIZE AP130X_PREVIEW_WIDTH = 2))]
  simp only
  rw [write_clean_page0_ok bus hwr0 d _ _ (by decide)
    (Or.inl (by decide : REG_SIZE AP130X_PREVIEW_HEIGHT = 2))]
  simp only
  rw [write_clean_page0_ok bus hwr0 d _ _ (by decide)
    (Or.inl (by decide : REG_SIZE AP130X_PREVIEW_OUT_FMT = 2))]
  simp only
  have h00 : ¬ (0 : Int) < 0 := by norm_num
  simp only [h00, if_false]
  have e1 : REG_SIZE AP130X_PREVIEW_HINF_CTRL = 2 := by decide
  have e2 : REG_ADDR AP130X_PREVIEW_HINF_CTRL = 0x2030 := by decide
  have e3 : REG_SIZE AP130X_PREVIEW_WIDTH = 2 := by decide
  have e4 : REG_ADDR AP130X_PREVIEW_WIDTH = 0x2000 := by decide
  have e5 : REG_SIZE AP130X_PREVIEW_HEIGHT = 2 := by decide
  have e6 : REG_ADDR AP130X_PREVIEW_HEIGHT = 0x2002 := by decide
  have e7 : REG_SIZE AP130X_PREVIEW_OUT_FMT = 2 := by decide
  have e8 : REG_ADDR AP130X_PREVIEW_OUT_FMT = 0x2012 := by decide
  rw [e1, e2, e3, e4, e5, e6, e7, e8]
  simp

/-- C8: stream stall controller idempotence.  Starting from the stalled
state on a bus on which every register write succeeds (and with the
control handler touching no stall register), a start call followed
immediately by a second start call issues exactly one stall-register
(SYS_START) write, the second call being a no-op with an empty trace; and
after any stop call, a second stop call issues zero register writes. -/
theorem C8_stream_stall_idempotence (bus : Bus) (ctrlEvs : List Ev)
    (data_lanes width height out_fmt : Nat) (sd : SDev)
    (hwr0 : ∀ (s a v : Nat), bus.wr s a v = 0)
    (hctrl : stallWrites ctrlEvs = 0)
    (hst : sd.streaming = false) :
    stallWrites
      ((ap130x_s_stream bus ctrlEvs data_lanes width height out_fmt
          sd true).2.2 ++
       (ap130x_s_stream bus ctrlEvs data_lanes width height out_fmt
         (ap130x_s_stream bus ctrlEvs data_lanes width height out_fmt
           sd true).2.1 true).2.2) = 1 ∧
    (ap130x_s_stream bus ctrlEvs data_lanes width height out_fmt
      (ap130x_s_stream bus ctrlEvs data_lanes width height out_fmt
        sd true).2.1 true).2.2 = [] ∧
    (∀ sd' : SDev,
      (ap130x_s_stream bus ctrlEvs data_lanes width height out_fmt
        (ap130x_s_stream bus ctrlEvs data_lanes width height out_fmt
          sd' false).2.1 false).2.2 = []) := by
  have hr1 : ap130x_s_stream bus ctrlEvs data_lanes width height out_fmt
      sd true =
      (0, ⟨sd.dev, true⟩,
       ([.wr 2 0x2030 (AP130X_PREVIEW_HINF_CTRL_SPOOF ||| data_lanes),
         .wr 2 0x2000 width, .wr 2 0x2002 height,
         .wr 2 0x2012 out_fmt] ++ ctrlEvs) ++
       [.wr 2 0x601a
         (AP130X_SYS_START_PLL_LOCK ||| AP130X_SYS_START_STALL_STATUS |||
          AP130X_SYS_START_STALL_EN |||
          AP130X_SYS_START_STALL_MODE_DISABLED)]) := by
    rw [ap130x_s_stream]
    simp only [hst, if_true, if_false]
    rw [configure_ok bus hwr0 ctrlEvs sd.dev data_lanes width height out_fmt]
    simp only
    have h00 : ¬ (0 : Int) < 0 := by norm_num
    simp only [h00, if_false]
    rw [stall_false_ok bus hwr0 sd.dev]
    simp
  refine ⟨?_, ?_, ?_⟩
  · rw [hr1]
    simp only
    rw [ap130x_s_stream]
    simp only [if_true, if_pos rfl]
    simp only [List.append_nil, stallWrites, List.filter_append]
    have h1 : List.filter isStallWrite
        [Ev.wr 2 0x2030 (AP130X_PREVIEW_HINF_CTRL_SPOOF ||| data_lanes),
         Ev.wr 2 0x2000 width, Ev.wr 2 0x2002 height,
         Ev.wr 2 0x2012 out_fmt] = [] := by
      simp [isStallWrite, List.filter]
    have h2 : (List.filter isStallWrite ctrlEvs).length = 0 := hctrl
    simp [h1, h2, isStallWrite, List.filter]
  · rw [hr1]
    simp only
    rw [ap130x_s_stream]
    simp
  · intro sd'
    by_cases hs' : sd'.streaming
    · have hr : ap130x_s_stream bus ctrlEvs data_lanes width height out_fmt
          sd' false =
          ((ap130x_stall bus sd'.dev true).1,
           ⟨(ap130x_stall bus sd'.dev true).2.1, false⟩,
           (ap130x_stall bus sd'.dev true).2.2) := by
        rw [ap130x_s_stream]
        simp [hs', stall_true_ok bus hwr0 sd'.dev]
      rw [hr]
      simp only
      rw [ap130x_s_stream]
      simp
    · have hs'' : sd'.streaming = false := by
        simpa using hs'
      have hr : ap130x_s_stream bus ctrlEvs data_lanes width height out_fmt
          sd' false = (0, sd', []) := by
        rw [ap130x_s_stream]
        simp [hs'']
      rw [hr]
      simp only
      rw [ap130x_s_stream]
      simp [hs'']

/-- Witness for C8 on the all-success bus from the stalled state. -/
theorem C8_stream_stall_idempotence_witness :
    stallWrites
      ((ap130x_s_stream okBus [] 2 1920 1080 5 ⟨⟨0⟩, false⟩ true).2.2 ++
       (ap130x_s_stream okBus [] 2 1920 1080 5
         (ap130x_s_stream okBus [] 2 1920 1080 5
           ⟨⟨0⟩, false⟩ true).2.1 true).2.2) = 1 ∧
    (ap130x_s_stream okBus [] 2 1920 1080 5
      (ap130x_s_stream okBus [] 2 1920 1080 5
        ⟨⟨0⟩, false⟩ true).2.1 true).2.2 = [] ∧
    (∀ sd' : SDev,
      (ap130x_s_stream okBus [] 2 1920 1080 5
        (ap130x_s_stream okBus [] 2 1920 1080 5 sd' false).2.1
        false).2.2 = []) :=
  C8_stream_stall_idempotence okBus [] 2 1920 1080 5 ⟨⟨0⟩, false⟩
    (fun _ _ _ => rfl) rfl rfl
